import Mathlib

set_option maxRecDepth 65536

/-!
Verification of the KATSEYE news aggregator against its specification.

The development shallowly embeds the three Python source files:
  src/cron/update_news.py  (research polling, extraction pipeline, publisher)
  src/backend/main.py      (serving facade)

JSON documents are modelled by the inductive type JsonV; Python dicts are
association lists with unique keys maintained by insertion; machine clocks
are passed explicitly as strings; network effects are modelled by outcome
parameters and call counters.  Numbers are modelled as integers (the
repository and its schema only use integer fields; floating point is
outside the model).  Inputs are drawn from the ResearchJob data model of
the specification, section 3: wherever the Python code would raise a
TypeError on a value outside that data model (for example a news_items
value that is not an array of objects), the embedding reads the value as
empty; such inputs are outside the quantification domain of every claim.
-/

/-- A JSON value, as produced by the research service or by json.loads. -/
inductive JsonV where
  | null : JsonV
  | bool (b : Bool) : JsonV
  | int (n : Int) : JsonV
  | str (s : String) : JsonV
  | arr (xs : List JsonV) : JsonV
  | obj (kvs : List (String × JsonV)) : JsonV

/-- A Python dict with string keys, in insertion order. -/
abbrev Obj := List (String × JsonV)

namespace Obj

/-- Python dict lookup: d.get(k), returning None when the key is absent. -/
def get (o : Obj) (k : String) : Option JsonV :=
  (o.find? (fun p => p.1 = k)).map (fun p => p.2)

/-- Python dict lookup with a default: d.get(k, dflt). -/
def getD (o : Obj) (k : String) (dflt : JsonV) : JsonV :=
  (o.get k).getD dflt

/-- Python key membership test: k in d. -/
def hasKey (o : Obj) (k : String) : Bool :=
  o.any (fun p => p.1 = k)

/-- Python dict assignment d[k] = v: overrides in place, else appends. -/
def insert (o : Obj) (k : String) (v : JsonV) : Obj :=
  if o.hasKey k then
    o.map (fun p => if p.1 = k then (k, v) else p)
  else
    o ++ [(k, v)]

/-- Python dict merge by double-star unpacking over a base dict. -/
def mergeOver (base : Obj) (upd : Obj) : Obj :=
  upd.foldl (fun acc p => acc.insert p.1 p.2) base

end Obj

/-- Python truthiness of a JSON value. -/
def pyTruthy : JsonV → Bool
  | .null => false
  | .bool b => b
  | .int n => n ≠ 0
  | .str s => s ≠ ""
  | .arr xs => !xs.isEmpty
  | .obj o => !o.isEmpty

/-- Read a JSON value as an object; non-objects read as empty
(the Python code would raise a TypeError there, outside the data model). -/
def asObj : JsonV → Obj
  | .obj o => o
  | _ => []

/-- Read a JSON value as an array; non-arrays read as empty
(the Python code would raise a TypeError there, outside the data model). -/
def asArr : JsonV → List JsonV
  | .arr xs => xs
  | _ => []

/-!
A model of json.loads, used by the embedded-JSON fallback tier.  It is a
total recursive-descent parser over the character list, fuelled by the
input length.  It covers the JSON fragment exercised by the repository:
objects, arrays, strings with the common escapes, integers, booleans and
null.  Parsing returns none where json.loads raises JSONDecodeError;
floating-point literals and unicode escapes are outside the model.
-/

namespace PyJson

/-- The opening brace character. -/
def lbrace : Char := Char.ofNat 123

/-- The closing brace character. -/
def rbrace : Char := Char.ofNat 125

/-- JSON whitespace. -/
def isWs (c : Char) : Bool := c = ' ' || c = '\t' || c = '\n' || c = '\r'

/-- Drop leading JSON whitespace. -/
def skipWs : List Char → List Char
  | c :: cs => if isWs c then skipWs cs else c :: cs
  | [] => []

/-- Parse the body of a string literal after the opening quote. -/
def parseStrBody : List Char → String → Option (String × List Char)
  | [], _ => none
  | c :: cs, acc =>
    if c = '"' then some (acc, cs)
    else if c = '\\' then
      match cs with
      | [] => none
      | e :: cs2 =>
        if e = '"' then parseStrBody cs2 (acc.push '"')
        else if e = '\\' then parseStrBody cs2 (acc.push '\\')
        else if e = '/' then parseStrBody cs2 (acc.push '/')
        else if e = 'n' then parseStrBody cs2 (acc.push '\n')
        else if e = 't' then parseStrBody cs2 (acc.push '\t')
        else if e = 'r' then parseStrBody cs2 (acc.push '\r')
        else none
    else parseStrBody cs (acc.push c)

/-- Consume a run of decimal digits. -/
def takeDigits (acc : Nat) : List Char → Nat × List Char
  | c :: cs =>
    if c.isDigit then takeDigits (10 * acc + (c.toNat - 48)) cs else (acc, c :: cs)
  | [] => (acc, [])

/-- Parse an integer literal (an optional minus sign and digits). -/
def parseInt : List Char → Option (Int × List Char)
  | c :: cs =>
    if c = '-' then
      match cs with
      | d :: _ =>
        if d.isDigit then
          let p := takeDigits 0 cs
          some (-(p.1 : Int), p.2)
        else none
      | [] => none
    else if c.isDigit then
      let p := takeDigits 0 (c :: cs)
      some ((p.1 : Int), p.2)
    else none
  | [] => none

mutual

/-- Parse one JSON value after skipping leading whitespace. -/
def parseVal : Nat → List Char → Option (JsonV × List Char)
  | 0, _ => none
  | fuel + 1, l =>
    match skipWs l with
    | [] => none
    | c :: cs =>
      if c = lbrace then parseObjBody fuel cs
      else if c = '[' then parseArrBody fuel cs
      else if c = '"' then (parseStrBody cs "").map (fun p => (.str p.1, p.2))
      else if c = 't' then
        if cs.take 3 = ['r', 'u', 'e'] then some (.bool true, cs.drop 3) else none
      else if c = 'f' then
        if cs.take 4 = ['a', 'l', 's', 'e'] then some (.bool false, cs.drop 4) else none
      else if c = 'n' then
        if cs.take 3 = ['u', 'l', 'l'] then some (.null, cs.drop 3) else none
      else (parseInt (c :: cs)).map (fun p => (.int p.1, p.2))

/-- Parse an object body after the opening brace. -/
def parseObjBody : Nat → List Char → Option (JsonV × List Char)
  | 0, _ => none
  | fuel + 1, l =>
    match skipWs l with
    | c :: cs => if c = rbrace then some (.obj [], cs) else parseMembers fuel (c :: cs) []
    | [] => none

/-- Parse the members of a non-empty object; duplicate keys keep the last
value, as Python dict construction does. -/
def parseMembers : Nat → List Char → Obj → Option (JsonV × List Char)
  | 0, _, _ => none
  | fuel + 1, l, acc =>
    match skipWs l with
    | c :: cs =>
      if c = '"' then
        match parseStrBody cs "" with
        | some (k, rest) =>
          match skipWs rest with
          | ':' :: rest2 =>
            match parseVal fuel rest2 with
            | some (v, rest3) =>
              match skipWs rest3 with
              | ',' :: rest4 => parseMembers fuel rest4 (acc.insert k v)
              | c2 :: rest4 =>
                if c2 = rbrace then some (.obj (acc.insert k v), rest4) else none
              | [] => none
            | none => none
          | _ => none
        | none => none
      else none
    | [] => none

/-- Parse an array body after the opening bracket. -/
def parseArrBody : Nat → List Char → Option (JsonV × List Char)
  | 0, _ => none
  | fuel + 1, l =>
    match skipWs l with
    | c :: cs => if c = ']' then some (.arr [], cs) else parseElems fuel (c :: cs) []
    | [] => none

/-- Parse the elements of a non-empty array. -/
def parseElems : Nat → List Char → List JsonV → Option (JsonV × List Char)
  | 0, _, _ => none
  | fuel + 1, l, acc =>
    match parseVal fuel l with
    | some (v, rest) =>
      match skipWs rest with
      | ',' :: rest2 => parseElems fuel rest2 (acc ++ [v])
      | c :: rest2 => if c = ']' then some (.arr (acc ++ [v]), rest2) else none
      | [] => none
    | none => none

end

/-- The model of json.loads: parse a whole document, requiring the entire
input to be consumed; none models a raised JSONDecodeError. -/
def loads (s : String) : Option JsonV :=
  match parseVal (s.length + 1) s.data with
  | some (v, rest) => if (skipWs rest).isEmpty then some v else none
  | none => none

end PyJson

/-!
The data model (specification section 3), instantiated over JSON values.
A check record carries the fields that extract_news_items reads:
check_name and answer are free text when present, passed is the
truthiness of the pass flag, and structured_output is the
payload.structured_output sub-document when it is a dict (a value that is
absent or not a dict never passes the isinstance guard, so it is
collapsed to none).
-/

/-- One check record of a ResearchJob result. -/
structure Check where
  check_name : Option String
  passed : Bool
  answer : Option String
  structured_output : Option Obj

/-- The fields of a research result that extract_news_items reads:
research_data.get("check_results", []) and
research_data.get("final_report", ""). -/
structure ResearchData where
  check_results : List Check
  final_report : String

/-- The bundle returned by extract_news_items. -/
structure Bundle where
  news_items : List Obj
  trending_topics : List JsonV
  upcoming_events : List JsonV

/-- The answer text of a check; absent reads as the empty string, which
is exactly the falsy case of the truthiness test below. -/
def answerStr (c : Check) : String := c.answer.getD ""

/-- The guard of both fallback tiers:
check.get("passed") and check.get("answer") truthiness. -/
def passedWithAnswer (c : Check) : Bool := c.passed && !(answerStr c).isEmpty

/-- Tier 1, per item: the news item dict literal built from one
structured_output news item, with id = str(len(news_items) + 1) = str n. -/
def mkStructuredItem (n : Nat) (itemV : JsonV) : Obj :=
  let item := asObj itemV
  [("id", .str (Nat.repr n)),
   ("headline", item.getD "headline" (.str "KATSEYE Update")),
   ("summary", item.getD "summary" (.str "")),
   ("category", item.getD "category" (.str "music")),
   ("content_type", item.getD "content_type" (.str "article")),
   ("source_url", item.getD "source_url" (.str "")),
   ("source_name", item.getD "source_name" (.str "Grep Research")),
   ("published_date", item.getD "published_date" (.str "")),
   ("relevance_score", item.getD "relevance_score" (.int 5)),
   ("member_tags", item.getD "member_tags" (.arr [])),
   ("media_urls", item.getD "media_urls" (.arr []))]

/-- The news_items array of a check record with a truthy structured_output
dict, as iterated by tier 1; empty when the guard fails or the key is
absent. -/
def structuredNews (c : Check) : List JsonV :=
  match c.structured_output with
  | some so =>
    if !so.isEmpty then
      match so.get "news_items" with
      | some v => asArr v
      | none => []
    else []
  | none => []

/-- Tier 1, per check: append every structured news item, ids continuing
the running count. -/
def tier1Step (acc : List Obj) (c : Check) : List Obj :=
  (structuredNews c).foldl (fun a itemV => a ++ [mkStructuredItem (a.length + 1) itemV]) acc

/-- Tier 1: the news items appended by the structured_output scan. -/
def tier1Items (checks : List Check) : List Obj :=
  checks.foldl tier1Step []

/-- The trending_topics accumulated by the structured_output scan. -/
def tier1TopicsStep (acc : List JsonV) (c : Check) : List JsonV :=
  match c.structured_output with
  | some so =>
    if !so.isEmpty then
      match so.get "trending_topics" with
      | some v => acc ++ asArr v
      | none => acc
    else acc
  | none => acc

/-- All trending topics found by tier 1. -/
def tier1Topics (checks : List Check) : List JsonV :=
  checks.foldl tier1TopicsStep []

/-- The upcoming_events accumulated by the structured_output scan. -/
def tier1EventsStep (acc : List JsonV) (c : Check) : List JsonV :=
  match c.structured_output with
  | some so =>
    if !so.isEmpty then
      match so.get "upcoming_events" with
      | some v => acc ++ asArr v
      | none => acc
    else acc
  | none => acc

/-- All upcoming events found by tier 1. -/
def tier1Events (checks : List Check) : List JsonV :=
  checks.foldl tier1EventsStep []

/-- Python str.strip(): drop whitespace from both ends. -/
def pyStrip (s : String) : String :=
  ⟨(((s.data.dropWhile PyJson.isWs).reverse.dropWhile PyJson.isWs)).reverse⟩

/-- Python str.startswith of the single opening-brace character. -/
def beginsWithBrace (s : String) : Bool :=
  match s.data with
  | c :: _ => c = PyJson.lbrace
  | [] => false

/-- Tier 2, parse attempt for one record: json.loads of the answer when
the stripped answer starts with an opening brace; none models both the
failed guard and a swallowed JSONDecodeError. -/
def tier2Parse (c : Check) : Option Obj :=
  if beginsWithBrace (pyStrip (answerStr c)) then
    match PyJson.loads (answerStr c) with
    | some (.obj parsed) => some parsed
    | some _ => none
    | none => none
  else none

/-- Whether tier 2 consumes a record: the parse succeeded and the result
has a news_items key, in which case the loop continues to the next
record even when the array is empty. -/
def tier2Consumes (c : Check) : Bool :=
  passedWithAnswer c &&
    match tier2Parse c with
    | some parsed => parsed.hasKey "news_items"
    | none => false

/-- The parsed news_items array of a record consumed by tier 2. -/
def tier2NewsArr (c : Check) : List JsonV :=
  match tier2Parse c with
  | some parsed =>
    match parsed.get "news_items" with
    | some v => asArr v
    | none => []
  | none => []

/-- Tier 2, per item: the parsed item unpacked over an assigned id,
so an id key inside the parsed item overrides the assigned one. -/
def tier2Item (n : Nat) (itemV : JsonV) : Obj :=
  Obj.mergeOver [("id", .str (Nat.repr n))] (asObj itemV)

/-- Tier 3 qualification: a passed check whose answer is strictly longer
than 100 characters. -/
def tier3Qualifies (c : Check) : Bool :=
  passedWithAnswer c && decide ((answerStr c).length > 100)

/-- Tier 3, per record: the synthesized plain-text news item. -/
def tier3Item (now : String) (n : Nat) (c : Check) : Obj :=
  [("id", .str (Nat.repr n)),
   ("headline", .str ((c.check_name.getD ("KATSEYE Update #" ++ Nat.repr n)).take 100)),
   ("summary", .str ((answerStr c).take 500)),
   ("category", .str "music"),
   ("content_type", .str "article"),
   ("source_url", .str ""),
   ("source_name", .str "Grep Research"),
   ("published_date", .str now),
   ("relevance_score", .int 6),
   ("member_tags", .arr [.str "Group"]),
   ("media_urls", .arr [])]

/-- One iteration of the fallback loop over check records, carrying the
accumulated news items and the running item_id.  A record consumed by
tier 2 appends its parsed items and hits continue; otherwise a passed
record with an answer longer than 100 characters synthesizes one item. -/
def fallbackStep (now : String) (st : List Obj × Nat) (c : Check) : List Obj × Nat :=
  if passedWithAnswer c then
    if tier2Consumes c then
      (tier2NewsArr c).foldl (fun p itemV => (p.1 ++ [tier2Item p.2 itemV], p.2 + 1)) st
    else if decide ((answerStr c).length > 100) then
      (st.1 ++ [tier3Item now st.2 c], st.2 + 1)
    else st
  else st

/-- Tier 4: the single summary item synthesized from final_report. -/
def finalReportItem (now : String) (final_report : String) : Obj :=
  [("id", .str "1"),
   ("headline", .str "Latest KATSEYE News Roundup"),
   ("summary", .str (if final_report.length > 500 then final_report.take 500 else final_report)),
   ("category", .str "music"),
   ("content_type", .str "article"),
   ("source_url", .str ""),
   ("source_name", .str "Grep Research"),
   ("published_date", .str now),
   ("relevance_score", .int 10),
   ("member_tags", .arr [.str "Group"]),
   ("media_urls", .arr [])]

/-- The sort key x.get("relevance_score", 0).  Values that are not
numbers would raise a TypeError in the Python comparison and are outside
the data model; booleans compare as 0 and 1 in Python. -/
def relKey (o : Obj) : Int :=
  match o.get "relevance_score" with
  | some (.int n) => n
  | some (.bool b) => if b then 1 else 0
  | some _ => 0
  | none => 0

/-- The comparison of the final stable sort: descending relevance score,
ties keeping their prior relative order. -/
def newsLe (a b : Obj) : Bool := relKey b ≤ relKey a

/-- The default trending topics used when none were found. -/
def defaultTopics : List JsonV :=
  [.str "#KATSEYE", .str "#EYEKON", .str "#PopStarAcademy", .str "#Touch"]

/-- The news items after tiers 1 to 3: the fallback loop (tiers 2 and 3)
runs only when tier 1 appended nothing. -/
def itemsAfterFallback (rd : ResearchData) (now : String) : List Obj :=
  if (tier1Items rd.check_results).isEmpty then
    (rd.check_results.foldl (fallbackStep now) (tier1Items rd.check_results, 1)).1
  else tier1Items rd.check_results

/-- The news item list built by the four tiers, before the final sort:
tier 4 runs only when the list is still empty and final_report is
truthy. -/
def preSortItems (rd : ResearchData) (now : String) : List Obj :=
  if (itemsAfterFallback rd now).isEmpty && !rd.final_report.isEmpty then
    itemsAfterFallback rd now ++ [finalReportItem now rd.final_report]
  else itemsAfterFallback rd now

/-- The extraction pipeline extract_news_items of src/cron/update_news.py.
The now parameter is the value of datetime.now(timezone.utc).isoformat()
during the run, passed explicitly. -/
def extract_news_items (rd : ResearchData) (now : String) : Bundle :=
  let topics := tier1Topics rd.check_results
  { news_items := (preSortItems rd now).mergeSort newsLe
    trending_topics := if topics.isEmpty then defaultTopics else topics
    upcoming_events := tier1Events rd.check_results }

/-!
The research client and publisher of src/cron/update_news.py.  Network
reads are modelled by a stream of poll responses indexed by attempt
number; the run trace counts the network calls each stage performed.
-/

/-- The environment configuration read at module load; the empty string
models an unset variable, matching os.getenv defaults. -/
structure Config where
  grep_api_url : String
  grep_api_token : String
  minio_endpoint : String
  minio_access_key : String
  minio_secret_key : String

/-- One response of the research status read. -/
structure JobPoll where
  status : String
  research : ResearchData

/-- The error taxonomy of a run (specification section 7). -/
inductive RunError where
  | config : RunError
  | externalService : RunError
  | timeout : RunError
deriving DecidableEq

/-- The outcome of the poll loop, carrying the number of status reads
performed. -/
inductive PollOutcome where
  | complete (attempts : Nat) (data : JobPoll) : PollOutcome
  | failed (attempts : Nat) (data : JobPoll) : PollOutcome
  | timedOut (attempts : Nat) : PollOutcome

/-- The poll loop from attempt index i with the given fuel: return the
data on status complete, raise on status failed, and synthesize a
timeout once the budget is exhausted. -/
def pollFrom (polls : Nat → JobPoll) (i : Nat) : Nat → PollOutcome
  | 0 => .timedOut i
  | fuel + 1 =>
    let d := polls i
    if d.status = "complete" then .complete (i + 1) d
    else if d.status = "failed" then .failed (i + 1) d
    else pollFrom polls (i + 1) fuel

/-- The polling protocol of run_research: up to 90 attempts at a fixed
10-second interval. -/
def run_research_poll (polls : Nat → JobPoll) : PollOutcome :=
  pollFrom polls 0 90

/-- A poll response whose status is terminal for the loop. -/
def isTerminal (d : JobPoll) : Prop :=
  d.status = "complete" ∨ d.status = "failed"

instance (d : JobPoll) : Decidable (isTerminal d) := by
  unfold isTerminal; infer_instance

/-- run_research: the configuration guard, the submit call, then the
poll loop.  The pair counts (submit calls, poll calls) made. -/
def run_research (cfg : Config) (polls : Nat → JobPoll) :
    Except RunError ResearchData × (Nat × Nat) :=
  if cfg.grep_api_url = "" || cfg.grep_api_token = "" then (.error .config, (0, 0))
  else
    match run_research_poll polls with
    | .complete a d => (.ok d.research, (1, a))
    | .failed a _ => (.error .externalService, (1, a))
    | .timedOut a => (.error .timeout, (1, a))

/-- save_to_minio: the credential guard, then two object writes (latest
and the dated archive).  The second component counts put calls. -/
def save_to_minio (cfg : Config) : Except RunError Unit × Nat :=
  if cfg.minio_endpoint = "" || cfg.minio_access_key = "" || cfg.minio_secret_key = "" then
    (.error .config, 0)
  else (.ok (), 2)

/-- The trace of one run of main: its result and the number of network
calls of each kind that were made. -/
structure RunTrace where
  result : Except RunError Bundle
  submit_calls : Nat
  poll_calls : Nat
  put_calls : Nat

/-- main: research, extraction, then publication, with any raised error
aborting the run. -/
def main_run (cfg : Config) (polls : Nat → JobPoll) (now : String) : RunTrace :=
  match run_research cfg polls with
  | (.error e, (s, p)) => ⟨.error e, s, p, 0⟩
  | (.ok rd, (s, p)) =>
    let bundle := extract_news_items rd now
    match save_to_minio cfg with
    | (.error e, puts) => ⟨.error e, s, p, puts⟩
    | (.ok _, puts) => ⟨.ok bundle, s, p, puts⟩

/-!
The serving facade of src/backend/main.py: the pydantic response models,
the demo data, fetch_from_minio and the get latest news handler.  The
startup parameter is the value of datetime.utcnow().isoformat() at
module import, which stamps the demo data.
-/

/-- The pydantic NewsItem response model. -/
structure NewsItemR where
  id : String
  headline : String
  summary : String
  category : String
  source_url : Option String
  source_name : Option String
  published_date : Option String
  relevance_score : Option Int
deriving DecidableEq

/-- The pydantic NewsResponse response model. -/
structure NewsResponse where
  last_updated : String
  news_items : List NewsItemR
  trending_topics : List String
deriving DecidableEq

/-- Validation of an optional string field: absent and null become none,
a string is kept, anything else is a validation error. -/
def optStrField (v : Option JsonV) : Option (Option String) :=
  match v with
  | none => some none
  | some .null => some none
  | some (.str s) => some (some s)
  | some _ => none

/-- Validation of an optional integer field. -/
def optIntField (v : Option JsonV) : Option (Option Int) :=
  match v with
  | none => some none
  | some .null => some none
  | some (.int n) => some (some n)
  | some _ => none

/-- Validation of a required string field. -/
def strField (v : Option JsonV) : Option String :=
  match v with
  | some (.str s) => some s
  | _ => none

/-- pydantic validation of one news item: the four required string
fields plus the optional ones; unknown keys are ignored. -/
def validateNewsItem (v : JsonV) : Option NewsItemR :=
  match v with
  | .obj o => do
    let id ← strField (Obj.get o "id")
    let headline ← strField (Obj.get o "headline")
    let summary ← strField (Obj.get o "summary")
    let category ← strField (Obj.get o "category")
    let source_url ← optStrField (Obj.get o "source_url")
    let source_name ← optStrField (Obj.get o "source_name")
    let published_date ← optStrField (Obj.get o "published_date")
    let relevance_score ← optIntField (Obj.get o "relevance_score")
    pure ⟨id, headline, summary, category, source_url, source_name,
          published_date, relevance_score⟩
  | _ => none

/-- pydantic validation of the NewsResponse constructor applied to a
fetched document; none models a raised ValidationError (served as an
internal error, not a bundle). -/
def validateNewsResponse (v : JsonV) : Option NewsResponse :=
  match v with
  | .obj o => do
    let last_updated ← strField (Obj.get o "last_updated")
    let itemsV ←
      match Obj.get o "news_items" with
      | some (.arr xs) => some xs
      | _ => none
    let items ← itemsV.mapM validateNewsItem
    let topics ←
      match Obj.get o "trending_topics" with
      | none => some []
      | some (.arr ts) => ts.mapM (fun t => match t with | .str s => some s | _ => none)
      | some _ => none
    pure ⟨last_updated, items, topics⟩
  | _ => none

/-- The DEMO_NEWS dict of the backend, stamped with the import-time
clock reading. -/
def DEMO_NEWS (startup : String) : JsonV :=
  .obj
    [("last_updated", .str startup),
     ("news_items", .arr
       [.obj [("id", .str "1"),
              ("headline", .str "KATSEYE Continues Global Rise"),
              ("summary", .str "The groundbreaking K-pop group formed through Netflix\x27s Pop Star Academy continues to captivate audiences worldwide with their unique blend of talent and personality."),
              ("category", .str "music"),
              ("source_name", .str "Demo News"),
              ("relevance_score", .int 10)],
        .obj [("id", .str "2"),
              ("headline", .str "Members Share Behind-the-Scenes Moments"),
              ("summary", .str "Daniela, Lara, Manon, Megan, Sophia, and Yoonchae give fans a glimpse into their daily lives through social media updates."),
              ("category", .str "social"),
              ("source_name", .str "Demo News"),
              ("relevance_score", .int 9)],
        .obj [("id", .str "3"),
              ("headline", .str "Debut Single Reaches New Milestone"),
              ("summary", .str "KATSEYE\x27s debut continues to climb charts as the group gains recognition across music streaming platforms."),
              ("category", .str "music"),
              ("source_name", .str "Demo News"),
              ("relevance_score", .int 8)]]),
     ("trending_topics", .arr [.str "#KATSEYE", .str "#EYEKON", .str "#PopStarAcademy"])]

/-- What the object store returned for the latest key: the store being
unreachable (a raised request error), a non-200 response, or a 200
response with a parsed JSON body. -/
inductive StoreResponse where
  | unreachable : StoreResponse
  | non200 : StoreResponse
  | ok (body : JsonV) : StoreResponse

/-- fetch_from_minio: none when the endpoint is unconfigured, the store
is unreachable, or the response is not a 200; a JSON null body also
reads as None in Python. -/
def fetch_from_minio (endpoint : String) (resp : StoreResponse) : Option JsonV :=
  if endpoint = "" then none
  else
    match resp with
    | .ok .null => none
    | .ok body => some body
    | .non200 => none
    | .unreachable => none

/-- The get latest news handler: a truthy fetched document is validated
as the response (a validation failure is an error, modelled as none);
otherwise the demo data is served. -/
def get_latest_news (endpoint : String) (resp : StoreResponse) (startup : String) :
    Option NewsResponse :=
  match fetch_from_minio endpoint resp with
  | some d => if pyTruthy d then validateNewsResponse d else validateNewsResponse (DEMO_NEWS startup)
  | none => validateNewsResponse (DEMO_NEWS startup)

/-!
Derived observations used to state the claims, and the concrete inputs
used by witnesses and counterexamples.
-/

/-- The number of structured news items one check contributes in tier 1. -/
def structCount (c : Check) : Nat := (structuredNews c).length

/-- The id values of a list of news items, in order. -/
def idsOf (l : List Obj) : List (Option JsonV) := l.map (fun o => Obj.get o "id")

/-- Blank the published_date value of a news item (the only field of the
pipeline output that depends on the clock). -/
def eraseDate (o : Obj) : Obj :=
  o.map (fun p => if p.1 = "published_date" then (p.1, JsonV.str "") else p)

/-- A bundle with every published_date blanked. -/
def eraseBundle (b : Bundle) : Bundle :=
  { b with news_items := b.news_items.map eraseDate }

/-- The items the free-text tier synthesizes from a check list when no
record is consumed by tier 2, with ids starting at n: one item per
qualifying record. -/
def tier3ExpectedFrom (now : String) (n : Nat) : List Check → List Obj
  | [] => []
  | c :: cs =>
    if tier3Qualifies c then tier3Item now n c :: tier3ExpectedFrom now (n + 1) cs
    else tier3ExpectedFrom now n cs

/-- How many items one record contributes to the fallback loop: its
parsed news items when tier 2 consumes it, otherwise one synthesized
item when it qualifies for tier 3, otherwise nothing — never both. -/
def checkContribution (c : Check) : Nat :=
  if tier2Consumes c then (tier2NewsArr c).length
  else if tier3Qualifies c then 1 else 0

/-- The decimal digit list of a natural number, by structural division:
the fuel-free counterpart of Nat.toDigitsCore at base 10. -/
def decRepr (n : Nat) : List Char :=
  if _h : n < 10 then [Nat.digitChar n]
  else decRepr (n / 10) ++ [Nat.digitChar (n % 10)]
decreasing_by exact Nat.div_lt_self (by omega) (by omega)

/-- The numeric value of a decimal digit character. -/
def digitVal (c : Char) : Nat := c.toNat - 48

/-- A 120-character plain-text answer (12 runs of the ten digits). -/
def ansLong : String := String.join (List.replicate 12 "0123456789")

/-- A 100-character plain-text answer. -/
def ans100 : String := String.join (List.replicate 10 "0123456789")

/-- A passed check with a long free-text answer and no structured data. -/
def chkLong : Check :=
  { check_name := some "Latest KATSEYE news", passed := true,
    answer := some ansLong, structured_output := none }

/-- A passed check whose answer is exactly 100 characters. -/
def chk100 : Check :=
  { check_name := some "KATSEYE roundup check", passed := true,
    answer := some ans100, structured_output := none }

/-- A passed check with a short answer. -/
def chkShort : Check :=
  { check_name := some "short check", passed := true,
    answer := some "short", structured_output := none }

/-- A check carrying one structured news item with relevance 7. -/
def chkStructured : Check :=
  { check_name := some "structured check", passed := true, answer := none,
    structured_output := some
      [("news_items", .arr [.obj
        [("headline", .str "H"), ("summary", .str "S"), ("category", .str "music"),
         ("content_type", .str "article"), ("source_name", .str "X"),
         ("relevance_score", .int 7)]]),
       ("trending_topics", .arr [.str "#Gnarly"])] }

/-- A passed check whose answer is an embedded JSON document with two
news items that both carry the same explicit id. -/
def chkDupIds : Check :=
  { check_name := some "json check", passed := true,
    answer := some "\x7b\"news_items\": [\x7b\"id\": \"x\"\x7d, \x7b\"id\": \"x\"\x7d]\x7d",
    structured_output := none }

/-- A passed check whose answer is an embedded JSON document with one
news item. -/
def chkJson : Check :=
  { check_name := some "embedded json check", passed := true,
    answer := some "\x7b\"news_items\": [\x7b\"headline\": \"A\"\x7d]\x7d",
    structured_output := none }

/-- A passed check whose embedded JSON news items have an explicit
negative relevance score and a missing one. -/
def chkScores : Check :=
  { check_name := some "scores check", passed := true,
    answer := some "\x7b\"news_items\": [\x7b\"relevance_score\": -1\x7d, \x7b\"headline\": \"h\"\x7d]\x7d",
    structured_output := none }

/-- A research result with one structured check. -/
def rdStructured : ResearchData := { check_results := [chkStructured], final_report := "" }

/-- A research result with one long-answer free-text check. -/
def rdLong : ResearchData := { check_results := [chkLong], final_report := "" }

/-- A research result with one exactly-100-character answer. -/
def rd100 : ResearchData := { check_results := [chk100], final_report := "" }

/-- A research result whose only check has duplicate embedded ids. -/
def rdDupIds : ResearchData := { check_results := [chkDupIds], final_report := "" }

/-- A research result with an embedded-JSON check followed by a
long-answer free-text check. -/
def rdMix : ResearchData := { check_results := [chkJson, chkLong], final_report := "" }

/-- A research result whose embedded items have a negative and a missing
relevance score. -/
def rdScores : ResearchData := { check_results := [chkScores], final_report := "" }

/-- A research result with one qualifying and one short free-text check. -/
def rdFreeText : ResearchData := { check_results := [chkLong, chkShort], final_report := "rep" }

/-- A fully populated configuration. -/
def cfgFull : Config :=
  { grep_api_url := "https://api.grep.ing", grep_api_token := "tok",
    minio_endpoint := "http://minio:9000", minio_access_key := "ak",
    minio_secret_key := "sk" }

/-- A configuration with the research API set but the object store
endpoint unset. -/
def cfgNoMinio : Config :=
  { grep_api_url := "https://api.grep.ing", grep_api_token := "tok",
    minio_endpoint := "", minio_access_key := "ak", minio_secret_key := "sk" }

/-- A configuration with the research token unset. -/
def cfgNoGrep : Config :=
  { grep_api_url := "https://api.grep.ing", grep_api_token := "",
    minio_endpoint := "http://minio:9000", minio_access_key := "ak",
    minio_secret_key := "sk" }

/-- A poll stream that runs twice and fails on the third read. -/
def pollsFailAt3 : Nat → JobPoll :=
  fun i => if i = 2 then ⟨"failed", ⟨[], ""⟩⟩ else ⟨"running", ⟨[], ""⟩⟩

/-- A poll stream that never reaches a terminal status. -/
def pollsNever : Nat → JobPoll := fun _ => ⟨"running", ⟨[], ""⟩⟩

/-- A poll stream that completes immediately with a structured result. -/
def pollsDone : Nat → JobPoll := fun _ => ⟨"complete", rdStructured⟩

/-- A stored document that is a truthy dict but fails response
validation: its single news item lacks the required headline field. -/
def badStoredDoc : JsonV :=
  .obj [("last_updated", .str "2026-01-01T06:00:00"),
        ("news_items", .arr [.obj [("id", .str "1")]])]

/-- A well-formed stored bundle document. -/
def goodStoredDoc : JsonV :=
  .obj [("last_updated", .str "2026-01-02T06:00:00"),
        ("news_items", .arr [.obj
          [("id", .str "1"), ("headline", .str "H"), ("summary", .str "S"),
           ("category", .str "music"), ("relevance_score", .int 9)]]),
        ("trending_topics", .arr [.str "#KATSEYE"])]

/-- The validated form of goodStoredDoc. -/
def goodStoredResponse : NewsResponse :=
  ⟨"2026-01-02T06:00:00",
   [⟨"1", "H", "S", "music", none, none, none, some 9⟩],
   ["#KATSEYE"]⟩

/-- The NewsResponse the demo data validates to. -/
def demoResponse (startup : String) : NewsResponse :=
  ⟨startup,
   [⟨"1", "KATSEYE Continues Global Rise",
     "The groundbreaking K-pop group formed through Netflix\x27s Pop Star Academy continues to captivate audiences worldwide with their unique blend of talent and personality.",
     "music", none, some "Demo News", none, some 10⟩,
    ⟨"2", "Members Share Behind-the-Scenes Moments",
     "Daniela, Lara, Manon, Megan, Sophia, and Yoonchae give fans a glimpse into their daily lives through social media updates.",
     "social", none, some "Demo News", none, some 9⟩,
    ⟨"3", "Debut Single Reaches New Milestone",
     "KATSEYE\x27s debut continues to climb charts as the group gains recognition across music streaming platforms.",
     "music", none, some "Demo News", none, some 8⟩],
   ["#KATSEYE", "#EYEKON", "#PopStarAcademy"]⟩

/-!
Helper lemmas about decimal representations: the ids assigned by the
pipeline are Nat.repr of the running counter, and their uniqueness needs
injectivity of Nat.repr.
-/

theorem toDigitsCore_eq_decRepr (fuel : Nat) :
    ∀ (n : Nat) (ds : List Char), n < fuel →
      Nat.toDigitsCore 10 fuel n ds = decRepr n ++ ds := by
  induction fuel with
  | zero => intro n ds h; omega
  | succ f ih =>
    intro n ds h
    by_cases h10 : n / 10 = 0
    · have hn : n < 10 := by omega
      simp only [Nat.toDigitsCore, h10, if_true]
      rw [decRepr]
      simp [hn, Nat.mod_eq_of_lt hn]
    · have hge : 10 ≤ n := by
        rcases Nat.lt_or_ge n 10 with hc | hc
        · exact absurd (Nat.div_eq_of_lt hc) h10
        · exact hc
      have hlt : n / 10 < f := by
        have := Nat.div_lt_self (by omega : 0 < n) (by omega : 1 < 10)
        omega
      simp only [Nat.toDigitsCore, h10, if_false]
      rw [ih (n / 10) _ hlt]
      rw [show decRepr n = decRepr (n / 10) ++ [Nat.digitChar (n % 10)] by
        rw [decRepr]; simp [Nat.not_lt.mpr hge]]
      simp

theorem digitVal_digitChar : ∀ d, d < 10 → digitVal (Nat.digitChar d) = d := by
  intro d h
  interval_cases d <;> decide

theorem decRepr_ne_nil (n : Nat) : decRepr n ≠ [] := by
  rw [decRepr]; split <;> simp

theorem decRepr_last (n : Nat) :
    decRepr n = (if n < 10 then [] else decRepr (n / 10)) ++ [Nat.digitChar (n % 10)] := by
  rw [decRepr]
  split
  · next h => simp [h, Nat.mod_eq_of_lt h]
  · next h => simp [h]

theorem decRepr_injective : ∀ a b, decRepr a = decRepr b → a = b := by
  intro a
  induction a using Nat.strong_induction_on with
  | _ a ih =>
    intro b h
    rw [decRepr_last a, decRepr_last b] at h
    obtain ⟨hpre, hsuf⟩ := List.append_inj' h rfl
    have hmod : a % 10 = b % 10 := by
      have hc : Nat.digitChar (a % 10) = Nat.digitChar (b % 10) := by
        simpa using hsuf
      have := congrArg digitVal hc
      rwa [digitVal_digitChar _ (Nat.mod_lt a (by omega)),
           digitVal_digitChar _ (Nat.mod_lt b (by omega))] at this
    by_cases ha : a < 10 <;> by_cases hb : b < 10
    · omega
    · rw [if_pos ha, if_neg hb] at hpre
      exact absurd hpre.symm (decRepr_ne_nil _)
    · rw [if_neg ha, if_pos hb] at hpre
      exact absurd hpre (decRepr_ne_nil _)
    · rw [if_neg ha, if_neg hb] at hpre
      have hdiv : a / 10 = b / 10 :=
        ih (a / 10) (Nat.div_lt_self (by omega) (by omega)) _ hpre
      omega

theorem Nat_repr_eq_decRepr (n : Nat) : Nat.repr n = (decRepr n).asString := by
  unfold Nat.repr Nat.toDigits
  rw [toDigitsCore_eq_decRepr (n + 1) n [] (Nat.lt_succ_self n)]
  simp

theorem Nat_repr_injective {a b : Nat} (h : Nat.repr a = Nat.repr b) : a = b := by
  rw [Nat_repr_eq_decRepr, Nat_repr_eq_decRepr] at h
  apply decRepr_injective
  simpa [List.asString, String.ext_iff] using h

theorem Nat_repr_ne_empty (n : Nat) : Nat.repr n ≠ "" := by
  rw [Nat_repr_eq_decRepr]
  intro h
  apply decRepr_ne_nil n
  simpa [List.asString, String.ext_iff] using h


/-!
Helper lemmas about dict lookup, insertion, and double-star merging.
-/


theorem get_nil (k : String) : Obj.get [] k = none := rfl

theorem get_cons_self {p : String × JsonV} {ps : Obj} {k : String} (h : p.1 = k) :
    Obj.get (p :: ps) k = some p.2 := by
  simp [Obj.get, List.find?_cons, h]

theorem get_cons_ne {p : String × JsonV} {ps : Obj} {k : String} (h : ¬ p.1 = k) :
    Obj.get (p :: ps) k = Obj.get ps k := by
  simp [Obj.get, List.find?_cons, h]

theorem get_eq_none_iff {o : Obj} {k : String} :
    Obj.get o k = none ↔ ∀ p ∈ o, ¬ p.1 = k := by
  simp [Obj.get, List.find?_eq_none]

theorem get_map_override_ne (o : Obj) (k' : String) (v : JsonV) (k : String)
    (hk : ¬ k = k') :
    Obj.get (o.map (fun p => if p.1 = k' then (k', v) else p)) k = Obj.get o k := by
  have hk2 : ¬ k' = k := fun hc => hk hc.symm
  induction o with
  | nil => rfl
  | cons p ps ih =>
    rw [List.map_cons]
    by_cases hp : p.1 = k'
    · rw [if_pos hp]
      have hpk : ¬ p.1 = k := by rw [hp]; exact hk2
      rw [get_cons_ne (p := (k', v)) hk2, get_cons_ne hpk]
      exact ih
    · rw [if_neg hp]
      by_cases hpk : p.1 = k
      · rw [get_cons_self hpk, get_cons_self hpk]
      · rw [get_cons_ne hpk, get_cons_ne hpk]
        exact ih

theorem get_insert (o : Obj) (k' : String) (v : JsonV) (k : String) :
    Obj.get (o.insert k' v) k = if k = k' then some v else Obj.get o k := by
  unfold Obj.insert
  by_cases hmem : o.hasKey k'
  · rw [if_pos hmem]
    by_cases hkk : k = k'
    · subst hkk
      rw [if_pos rfl]
      induction o with
      | nil => simp [Obj.hasKey] at hmem
      | cons p ps ih =>
        rw [List.map_cons]
        by_cases hp : p.1 = k
        · rw [if_pos hp]
          exact get_cons_self rfl
        · rw [if_neg hp, get_cons_ne hp]
          exact ih (by simpa [Obj.hasKey, List.any_cons, hp] using hmem)
    · rw [if_neg hkk]
      exact get_map_override_ne o k' v k hkk
  · rw [if_neg hmem]
    have hno : ∀ p ∈ o, ¬ p.1 = k' := by
      intro p hp hc
      apply hmem
      rw [Obj.hasKey, List.any_eq_true]
      exact ⟨p, hp, by simp [hc]⟩
    by_cases hkk : k = k'
    · subst hkk
      rw [if_pos rfl, Obj.get, List.find?_append]
      have h1 : o.find? (fun p => p.1 = k) = none := by
        rw [List.find?_eq_none]
        intro p hp
        simpa using hno p hp
      rw [h1]
      simp [List.find?_cons]
    · rw [if_neg hkk, Obj.get, List.find?_append]
      have hk2 : ¬ k' = k := fun hc => hkk hc.symm
      have h2 : List.find? (fun p => p.1 = k) [(k', v)] = none := by
        simp [List.find?_cons, hk2]
      rw [h2]
      simp [Obj.get]

theorem get_mergeOver_of_not_mem (base upd : Obj) (k : String)
    (h : ∀ p ∈ upd, ¬ p.1 = k) :
    Obj.get (Obj.mergeOver base upd) k = Obj.get base k := by
  induction upd generalizing base with
  | nil => rfl
  | cons p ps ih =>
    have hstep : Obj.mergeOver base (p :: ps) = Obj.mergeOver (base.insert p.1 p.2) ps := rfl
    rw [hstep, ih _ (fun q hq => h q (List.mem_cons_of_mem _ hq))]
    rw [get_insert]
    exact if_neg (fun hc => h p (List.mem_cons_self p ps) hc.symm)

theorem get_mergeOver_of_nodup (base upd : Obj) (k : String)
    (hnd : (upd.map Prod.fst).Nodup) :
    Obj.get (Obj.mergeOver base upd) k =
      match Obj.get upd k with
      | some v => some v
      | none => Obj.get base k := by
  induction upd generalizing base with
  | nil => rfl
  | cons p ps ih =>
    have hstep : Obj.mergeOver base (p :: ps) = Obj.mergeOver (base.insert p.1 p.2) ps := rfl
    have hnd2 : (ps.map Prod.fst).Nodup := (List.nodup_cons.mp (by simpa using hnd)).2
    have hnotin : p.1 ∉ ps.map Prod.fst := (List.nodup_cons.mp (by simpa using hnd)).1
    rw [hstep, ih _ hnd2]
    by_cases hk : k = p.1
    · have hnone : Obj.get ps k = none := by
        rw [get_eq_none_iff]
        intro q hq hc
        rw [hk] at hc
        exact hnotin (hc ▸ List.mem_map_of_mem Prod.fst hq)
      rw [hnone, get_insert, if_pos hk, get_cons_self hk.symm]
    · rw [get_insert, if_neg hk, get_cons_ne (fun hc => hk hc.symm)]

/-!
Helper lemmas about the final stable sort and the comparison it uses.
-/

theorem newsLe_trans : ∀ a b c : Obj, newsLe a b → newsLe b c → newsLe a c := by
  intro a b c h1 h2
  simp only [newsLe, decide_eq_true_eq] at h1 h2 ⊢
  omega

theorem newsLe_total : ∀ a b : Obj, newsLe a b || newsLe b a := by
  intro a b
  simp only [newsLe, Bool.or_eq_true, decide_eq_true_eq]
  omega

theorem mergeSort_pair {α : Type} (le : α → α → Bool) (a b : α) :
    [a, b].mergeSort le = if le a b then [a, b] else [b, a] := by
  rw [List.mergeSort]
  simp only [List.splitInTwo_fst, List.splitInTwo_snd, List.length_cons, List.length_nil]
  norm_num
  rw [List.cons_merge_cons]
  split
  · rw [List.nil_merge]
  · rw [List.merge_right]

theorem extract_pairwise (rd : ResearchData) (now : String) :
    ((extract_news_items rd now).news_items).Pairwise
      (fun a b => relKey b ≤ relKey a) := by
  have h := @List.sorted_mergeSort Obj newsLe newsLe_trans newsLe_total
    (preSortItems rd now)
  have he : (extract_news_items rd now).news_items =
      (preSortItems rd now).mergeSort newsLe := rfl
  rw [he]
  exact h.imp (fun hab => by simpa [newsLe] using hab)

theorem pairwise_newsLe_of_const {l : List Obj} {s : Int}
    (h : ∀ o ∈ l, relKey o = s) : l.Pairwise (fun a b => newsLe a b = true) := by
  induction l with
  | nil => exact List.Pairwise.nil
  | cons a as ih =>
    refine List.Pairwise.cons ?_ (ih (fun o ho => h o (List.mem_cons_of_mem a ho)))
    intro b hb
    have ha := h a (List.mem_cons_self a as)
    have hbs := h b (List.mem_cons_of_mem a hb)
    simp [newsLe, ha, hbs]

theorem filter_key_mergeSort (s : Int) (l : List Obj) :
    ((l.mergeSort newsLe).filter (fun o => relKey o == s)) =
      l.filter (fun o => relKey o == s) := by
  have hpair : (l.filter (fun o => relKey o == s)).Pairwise
      (fun a b => newsLe a b = true) := by
    apply pairwise_newsLe_of_const (s := s)
    intro o ho
    have := (List.mem_filter.mp ho).2
    simpa using this
  have hsub1 : List.Sublist (l.filter (fun o => relKey o == s)) (l.mergeSort newsLe) :=
    List.sublist_mergeSort newsLe_trans newsLe_total hpair (List.filter_sublist l)
  have hsub2 : List.Sublist (l.filter (fun o => relKey o == s))
      ((l.mergeSort newsLe).filter (fun o => relKey o == s)) := by
    have h3 := hsub1.filter (fun o => relKey o == s)
    rwa [List.filter_filter, show (fun o => (relKey o == s) && (relKey o == s)) =
      (fun o => relKey o == s) from funext (fun o => Bool.and_self _)] at h3
  have hlen : ((l.mergeSort newsLe).filter (fun o => relKey o == s)).length =
      (l.filter (fun o => relKey o == s)).length :=
    ((List.mergeSort_perm l newsLe).filter (fun o => relKey o == s)).length_eq
  exact (hsub2.eq_of_length hlen.symm).symm

/-!
Helper lemmas about published_date erasure: the clock only flows into
the published_date of synthesized items.
-/

theorem get_eraseDate_ne (o : Obj) (k : String) (hk : ¬ k = "published_date") :
    Obj.get (eraseDate o) k = Obj.get o k := by
  induction o with
  | nil => rfl
  | cons p ps ih =>
    rw [eraseDate, List.map_cons]
    by_cases hp : p.1 = "published_date"
    · have hpk : ¬ p.1 = k := by rw [hp]; exact fun hc => hk hc.symm
      rw [if_pos hp]
      rw [get_cons_ne (p := (p.1, JsonV.str "")) hpk, get_cons_ne hpk]
      exact ih
    · rw [if_neg hp]
      by_cases hpk : p.1 = k
      · rw [get_cons_self hpk, get_cons_self hpk]
      · rw [get_cons_ne hpk, get_cons_ne hpk]
        exact ih

theorem relKey_eraseDate (o : Obj) : relKey (eraseDate o) = relKey o := by
  rw [relKey, relKey, get_eraseDate_ne o "relevance_score" (by decide)]

theorem newsLe_eraseDate (a b : Obj) :
    newsLe (eraseDate a) (eraseDate b) = newsLe a b := by
  simp [newsLe, relKey_eraseDate]

theorem eraseDate_tier3Item (t1 t2 : String) (n : Nat) (c : Check) :
    eraseDate (tier3Item t1 n c) = eraseDate (tier3Item t2 n c) := by
  simp [eraseDate, tier3Item]

theorem eraseDate_finalReportItem (t1 t2 : String) (r : String) :
    eraseDate (finalReportItem t1 r) = eraseDate (finalReportItem t2 r) := by
  simp [eraseDate, finalReportItem]

theorem tier2_fold_erase (xs : List JsonV) :
    ∀ (p₁ p₂ : List Obj × Nat),
      p₁.1.map eraseDate = p₂.1.map eraseDate → p₁.2 = p₂.2 →
      ((xs.foldl (fun p itemV => (p.1 ++ [tier2Item p.2 itemV], p.2 + 1)) p₁).1.map eraseDate =
        (xs.foldl (fun p itemV => (p.1 ++ [tier2Item p.2 itemV], p.2 + 1)) p₂).1.map eraseDate) ∧
      ((xs.foldl (fun p itemV => (p.1 ++ [tier2Item p.2 itemV], p.2 + 1)) p₁).2 =
        (xs.foldl (fun p itemV => (p.1 ++ [tier2Item p.2 itemV], p.2 + 1)) p₂).2) := by
  induction xs with
  | nil => intro p₁ p₂ h1 h2; exact ⟨h1, h2⟩
  | cons x xs ih =>
    intro p₁ p₂ h1 h2
    apply ih
    · simp only [List.map_append, h1, h2]
    · simp only [h2]

theorem fallback_fold_erase (t1 t2 : String) (cs : List Check) :
    ∀ (st₁ st₂ : List Obj × Nat),
      st₁.1.map eraseDate = st₂.1.map eraseDate → st₁.2 = st₂.2 →
      ((cs.foldl (fallbackStep t1) st₁).1.map eraseDate =
        (cs.foldl (fallbackStep t2) st₂).1.map eraseDate) ∧
      ((cs.foldl (fallbackStep t1) st₁).2 = (cs.foldl (fallbackStep t2) st₂).2) := by
  induction cs with
  | nil => intro st₁ st₂ h1 h2; exact ⟨h1, h2⟩
  | cons c cs ih =>
    intro st₁ st₂ h1 h2
    have hstep :
        (fallbackStep t1 st₁ c).1.map eraseDate = (fallbackStep t2 st₂ c).1.map eraseDate ∧
        (fallbackStep t1 st₁ c).2 = (fallbackStep t2 st₂ c).2 := by
      unfold fallbackStep
      by_cases hp : passedWithAnswer c
      · rw [if_pos hp, if_pos hp]
        by_cases h2c : tier2Consumes c
        · rw [if_pos h2c, if_pos h2c]
          exact tier2_fold_erase _ _ _ h1 h2
        · rw [if_neg h2c, if_neg h2c]
          by_cases h3 : (answerStr c).length > 100
          · rw [if_pos (by simpa using h3), if_pos (by simpa using h3)]
            refine ⟨?_, by simp [h2]⟩
            simp only [List.map_append, h1, h2, List.map_cons, List.map_nil]
            rw [eraseDate_tier3Item t1 t2 st₂.2 c]
          · rw [if_neg (by simpa using h3), if_neg (by simpa using h3)]
            exact ⟨h1, h2⟩
      · rw [if_neg hp, if_neg hp]
        exact ⟨h1, h2⟩
    exact ih _ _ hstep.1 hstep.2

theorem itemsAfterFallback_erase (rd : ResearchData) (t1 t2 : String) :
    (itemsAfterFallback rd t1).map eraseDate = (itemsAfterFallback rd t2).map eraseDate := by
  unfold itemsAfterFallback
  by_cases hempty : (tier1Items rd.check_results).isEmpty
  · rw [hempty, if_pos rfl, if_pos rfl]
    exact (fallback_fold_erase t1 t2 rd.check_results
      (tier1Items rd.check_results, 1) (tier1Items rd.check_results, 1) rfl rfl).1
  · rw [Bool.not_eq_true] at hempty
    rw [hempty]
    simp only [Bool.false_eq_true, if_false]

theorem itemsAfterFallback_isEmpty (rd : ResearchData) (t1 t2 : String) :
    (itemsAfterFallback rd t1).isEmpty = (itemsAfterFallback rd t2).isEmpty := by
  have hlen : (itemsAfterFallback rd t1).length = (itemsAfterFallback rd t2).length := by
    have := congrArg List.length (itemsAfterFallback_erase rd t1 t2)
    simpa using this
  have haux : ∀ (l₁ l₂ : List Obj), l₁.length = l₂.length → l₁.isEmpty = l₂.isEmpty := by
    intro l₁ l₂ h
    cases l₁ <;> cases l₂ <;> simp_all
  exact haux _ _ hlen

theorem preSortItems_erase (rd : ResearchData) (t1 t2 : String) :
    (preSortItems rd t1).map eraseDate = (preSortItems rd t2).map eraseDate := by
  unfold preSortItems
  rw [← itemsAfterFallback_isEmpty rd t1 t2]
  by_cases hi : ((itemsAfterFallback rd t1).isEmpty && !rd.final_report.isEmpty)
  · rw [hi, if_pos rfl, if_pos rfl]
    simp only [List.map_append, List.map_cons, List.map_nil]
    rw [itemsAfterFallback_erase rd t1 t2, eraseDate_finalReportItem t1 t2 rd.final_report]
  · rw [Bool.not_eq_true] at hi
    rw [hi]
    simp only [Bool.false_eq_true, if_false]
    exact itemsAfterFallback_erase rd t1 t2

theorem map_eraseDate_mergeSort (l : List Obj) :
    (l.mergeSort newsLe).map eraseDate = (l.map eraseDate).mergeSort newsLe :=
  List.map_mergeSort (fun a _ b _ => (newsLe_eraseDate a b).symm)

/-!
Helper lemmas about item counts and assigned ids.
-/

theorem tier1_inner_length (xs : List JsonV) :
    ∀ acc : List Obj,
      (xs.foldl (fun a itemV => a ++ [mkStructuredItem (a.length + 1) itemV]) acc).length
        = acc.length + xs.length := by
  induction xs with
  | nil => intro acc; simp
  | cons x xs ih =>
    intro acc
    rw [List.foldl_cons, ih]
    simp
    omega

theorem tier1Step_length (acc : List Obj) (c : Check) :
    (tier1Step acc c).length = acc.length + structCount c :=
  tier1_inner_length (structuredNews c) acc

theorem tier1Items_length_general (checks : List Check) :
    ∀ acc : List Obj,
      (checks.foldl tier1Step acc).length = acc.length + (checks.map structCount).sum := by
  induction checks with
  | nil => intro acc; simp
  | cons c cs ih =>
    intro acc
    rw [List.foldl_cons, ih, tier1Step_length]
    simp [List.map_cons]
    omega

theorem tier1Items_length (checks : List Check) :
    (tier1Items checks).length = (checks.map structCount).sum := by
  have := tier1Items_length_general checks []
  simpa [tier1Items] using this

theorem idsOf_append (a b : List Obj) : idsOf (a ++ b) = idsOf a ++ idsOf b := by
  simp [idsOf]

theorem get_mkStructuredItem_id (n : Nat) (itemV : JsonV) :
    Obj.get (mkStructuredItem n itemV) "id" = some (.str (Nat.repr n)) := rfl

theorem get_tier3Item_id (now : String) (n : Nat) (c : Check) :
    Obj.get (tier3Item now n c) "id" = some (.str (Nat.repr n)) := rfl

theorem get_finalReportItem_id (now r : String) :
    Obj.get (finalReportItem now r) "id" = some (.str "1") := rfl

theorem get_tier2Item_id (n : Nat) (itemV : JsonV)
    (h : ∀ p ∈ asObj itemV, ¬ p.1 = "id") :
    Obj.get (tier2Item n itemV) "id" = some (.str (Nat.repr n)) := by
  rw [tier2Item, get_mergeOver_of_not_mem _ _ _ h]
  rfl

theorem ids_snoc (l : List Obj) (o : Obj)
    (hl : idsOf l = (List.range' 1 l.length).map (fun k => some (JsonV.str (Nat.repr k))))
    (ho : Obj.get o "id" = some (.str (Nat.repr (l.length + 1)))) :
    idsOf (l ++ [o]) =
      (List.range' 1 (l ++ [o]).length).map (fun k => some (JsonV.str (Nat.repr k))) := by
  rw [idsOf_append, hl]
  have h1 : idsOf [o] = [some (JsonV.str (Nat.repr (l.length + 1)))] := by
    simp [idsOf, ho]
  rw [h1]
  rw [List.length_append, List.length_cons, List.length_nil]
  rw [List.range'_1_concat, List.map_append]
  rw [Nat.add_comm 1 l.length]
  rfl

theorem tier1_inner_ids (xs : List JsonV) :
    ∀ acc : List Obj,
      idsOf acc = (List.range' 1 acc.length).map (fun k => some (JsonV.str (Nat.repr k))) →
      idsOf (xs.foldl (fun a itemV => a ++ [mkStructuredItem (a.length + 1) itemV]) acc)
        = (List.range' 1
            (xs.foldl (fun a itemV => a ++ [mkStructuredItem (a.length + 1) itemV]) acc).length).map
            (fun k => some (JsonV.str (Nat.repr k))) := by
  induction xs with
  | nil => intro acc h; exact h
  | cons x xs ih =>
    intro acc h
    rw [List.foldl_cons]
    exact ih _ (ids_snoc acc _ h (get_mkStructuredItem_id _ _))

theorem tier1Items_ids (checks : List Check) :
    idsOf (tier1Items checks) =
      (List.range' 1 (tier1Items checks).length).map (fun k => some (JsonV.str (Nat.repr k))) := by
  unfold tier1Items
  have haux : ∀ acc : List Obj,
      idsOf acc = (List.range' 1 acc.length).map (fun k => some (JsonV.str (Nat.repr k))) →
      idsOf (checks.foldl tier1Step acc)
        = (List.range' 1 (checks.foldl tier1Step acc).length).map
            (fun k => some (JsonV.str (Nat.repr k))) := by
    induction checks with
    | nil => intro acc h; exact h
    | cons c cs ih =>
      intro acc h
      rw [List.foldl_cons]
      exact ih _ (tier1_inner_ids (structuredNews c) acc h)
  exact haux [] (by simp [idsOf, List.range'])

theorem tier2_inner_ids (xs : List JsonV)
    (hx : ∀ itemV ∈ xs, ∀ p ∈ asObj itemV, ¬ p.1 = "id") :
    ∀ st : List Obj × Nat, st.2 = st.1.length + 1 →
      idsOf st.1 = (List.range' 1 st.1.length).map (fun k => some (JsonV.str (Nat.repr k))) →
      idsOf ((xs.foldl (fun p itemV => (p.1 ++ [tier2Item p.2 itemV], p.2 + 1)) st).1)
          = (List.range' 1
              ((xs.foldl (fun p itemV => (p.1 ++ [tier2Item p.2 itemV], p.2 + 1)) st).1.length)).map
              (fun k => some (JsonV.str (Nat.repr k)))
        ∧ (xs.foldl (fun p itemV => (p.1 ++ [tier2Item p.2 itemV], p.2 + 1)) st).2
          = (xs.foldl (fun p itemV => (p.1 ++ [tier2Item p.2 itemV], p.2 + 1)) st).1.length + 1 := by
  induction xs with
  | nil => intro st h2 h1; exact ⟨h1, h2⟩
  | cons x xs ih =>
    intro st h2 h1
    rw [List.foldl_cons]
    apply ih (fun itemV hm => hx itemV (List.mem_cons_of_mem x hm))
    · simp [h2]
    · have hid : Obj.get (tier2Item st.2 x) "id" = some (.str (Nat.repr (st.1.length + 1))) := by
        rw [get_tier2Item_id st.2 x (hx x (List.mem_cons_self x xs)), h2]
      exact ids_snoc st.1 _ h1 hid

theorem fallback_ids (now : String) (cs : List Check)
    (hcs : ∀ c ∈ cs, ∀ itemV ∈ tier2NewsArr c, ∀ p ∈ asObj itemV, ¬ p.1 = "id") :
    ∀ st : List Obj × Nat, st.2 = st.1.length + 1 →
      idsOf st.1 = (List.range' 1 st.1.length).map (fun k => some (JsonV.str (Nat.repr k))) →
      idsOf ((cs.foldl (fallbackStep now) st).1)
          = (List.range' 1 ((cs.foldl (fallbackStep now) st).1.length)).map
              (fun k => some (JsonV.str (Nat.repr k)))
        ∧ (cs.foldl (fallbackStep now) st).2 = (cs.foldl (fallbackStep now) st).1.length + 1 := by
  induction cs with
  | nil => intro st h2 h1; exact ⟨h1, h2⟩
  | cons c cs ih =>
    intro st h2 h1
    rw [List.foldl_cons]
    have hstep :
        (fallbackStep now st c).2 = (fallbackStep now st c).1.length + 1 ∧
        idsOf (fallbackStep now st c).1
          = (List.range' 1 ((fallbackStep now st c).1.length)).map
              (fun k => some (JsonV.str (Nat.repr k))) := by
      unfold fallbackStep
      by_cases hp : passedWithAnswer c
      · rw [if_pos hp]
        by_cases h2c : tier2Consumes c
        · rw [if_pos h2c]
          have := tier2_inner_ids (tier2NewsArr c)
            (hcs c (List.mem_cons_self c cs)) st h2 h1
          exact ⟨this.2, this.1⟩
        · rw [if_neg h2c]
          by_cases h3 : (answerStr c).length > 100
          · rw [if_pos (by simpa using h3)]
            constructor
            · simp [h2]
            · have hid : Obj.get (tier3Item now st.2 c) "id"
                  = some (.str (Nat.repr (st.1.length + 1))) := by
                rw [get_tier3Item_id, h2]
              exact ids_snoc st.1 _ h1 hid
          · rw [if_neg (by simpa using h3)]
            exact ⟨h2, h1⟩
      · rw [if_neg hp]
        exact ⟨h2, h1⟩
    exact ih (fun q hq => hcs q (List.mem_cons_of_mem c hq)) _ hstep.1 hstep.2

theorem preSortItems_ids (rd : ResearchData) (now : String)
    (hcs : ∀ c ∈ rd.check_results, ∀ itemV ∈ tier2NewsArr c, ∀ p ∈ asObj itemV, ¬ p.1 = "id") :
    idsOf (preSortItems rd now)
      = (List.range' 1 (preSortItems rd now).length).map
          (fun k => some (JsonV.str (Nat.repr k))) := by
  have hfb : idsOf (itemsAfterFallback rd now)
      = (List.range' 1 (itemsAfterFallback rd now).length).map
          (fun k => some (JsonV.str (Nat.repr k))) := by
    unfold itemsAfterFallback
    by_cases hempty : (tier1Items rd.check_results).isEmpty
    · rw [hempty, if_pos rfl]
      have hnil : tier1Items rd.check_results = [] := List.isEmpty_iff.mp hempty
      have := fallback_ids now rd.check_results hcs (tier1Items rd.check_results, 1)
        (by rw [hnil]; rfl) (by rw [hnil]; simp [idsOf, List.range'])
      exact this.1
    · rw [Bool.not_eq_true] at hempty
      rw [hempty]
      simp only [Bool.false_eq_true, if_false]
      exact tier1Items_ids rd.check_results
  unfold preSortItems
  by_cases hi : ((itemsAfterFallback rd now).isEmpty && !rd.final_report.isEmpty)
  · rw [hi, if_pos rfl]
    have hnil : itemsAfterFallback rd now = [] := by
      have := (Bool.and_eq_true _ _).mp hi
      exact List.isEmpty_iff.mp this.1
    rw [hnil]
    simp [idsOf, List.range', get_finalReportItem_id]
    decide
  · rw [Bool.not_eq_true] at hi
    rw [hi]
    simp only [Bool.false_eq_true, if_false]
    exact hfb

/-!
Helper lemmas about the fallback loop: what it contributes per record.
-/

theorem tier3ExpectedFrom_length (now : String) :
    ∀ (cs : List Check) (n : Nat),
      (tier3ExpectedFrom now n cs).length = (cs.filter tier3Qualifies).length := by
  intro cs
  induction cs with
  | nil => intro n; rfl
  | cons c cs ih =>
    intro n
    rw [tier3ExpectedFrom]
    by_cases hq : tier3Qualifies c
    · simp [hq, List.filter_cons, ih]
    · rw [Bool.not_eq_true] at hq
      simp [hq, List.filter_cons, ih]

theorem relKey_tier3Item (now : String) (n : Nat) (c : Check) :
    relKey (tier3Item now n c) = 6 := rfl

theorem relKey_tier3ExpectedFrom (now : String) :
    ∀ (cs : List Check) (n : Nat), ∀ o ∈ tier3ExpectedFrom now n cs, relKey o = 6 := by
  intro cs
  induction cs with
  | nil => intro n o ho; simp [tier3ExpectedFrom] at ho
  | cons c cs ih =>
    intro n o ho
    rw [tier3ExpectedFrom] at ho
    by_cases hq : tier3Qualifies c
    · rw [if_pos hq] at ho
      rcases List.mem_cons.mp ho with h | h
      · rw [h]; exact relKey_tier3Item now n c
      · exact ih (n + 1) o h
    · rw [if_neg hq] at ho
      exact ih n o ho

theorem fallback_no_consumption (now : String) (cs : List Check)
    (h : ∀ c ∈ cs, tier2Consumes c = false) :
    ∀ st : List Obj × Nat,
      (cs.foldl (fallbackStep now) st).1 = st.1 ++ tier3ExpectedFrom now st.2 cs := by
  induction cs with
  | nil => intro st; simp [tier3ExpectedFrom]
  | cons c cs ih =>
    intro st
    rw [List.foldl_cons, tier3ExpectedFrom]
    have hc := h c (List.mem_cons_self c cs)
    have ihr := ih (fun q hq2 => h q (List.mem_cons_of_mem c hq2))
    by_cases hp : passedWithAnswer c
    · by_cases h3 : (answerStr c).length > 100
      · have hq : tier3Qualifies c = true := by
          simp [tier3Qualifies, hp, h3]
        have hstep : fallbackStep now st c = (st.1 ++ [tier3Item now st.2 c], st.2 + 1) := by
          unfold fallbackStep
          rw [if_pos hp]
          simp only [hc, Bool.false_eq_true, if_false]
          rw [if_pos (by simpa using h3)]
        rw [hstep, ihr, if_pos hq]
        simp [List.append_assoc]
      · have hq : tier3Qualifies c = false := by
          simp [tier3Qualifies, h3]
        have hstep : fallbackStep now st c = st := by
          unfold fallbackStep
          rw [if_pos hp]
          simp only [hc, Bool.false_eq_true, if_false]
          rw [if_neg (by simpa using h3)]
        rw [hstep, ihr, hq]
        simp
    · have hq : tier3Qualifies c = false := by
        simp [tier3Qualifies, hp]
      have hstep : fallbackStep now st c = st := by
        unfold fallbackStep
        rw [if_neg hp]
      rw [hstep, ihr, hq]
      simp

theorem tier2_inner_length (xs : List JsonV) :
    ∀ st : List Obj × Nat,
      ((xs.foldl (fun p itemV => (p.1 ++ [tier2Item p.2 itemV], p.2 + 1)) st).1).length
        = st.1.length + xs.length := by
  induction xs with
  | nil => intro st; simp
  | cons x xs ih =>
    intro st
    rw [List.foldl_cons, ih]
    simp
    omega

theorem fallback_length (now : String) (cs : List Check) :
    ∀ st : List Obj × Nat,
      ((cs.foldl (fallbackStep now) st).1).length
        = st.1.length + (cs.map checkContribution).sum := by
  induction cs with
  | nil => intro st; simp
  | cons c cs ih =>
    intro st
    rw [List.foldl_cons, ih, List.map_cons, List.sum_cons]
    have hstep : (fallbackStep now st c).1.length = st.1.length + checkContribution c := by
      unfold fallbackStep checkContribution
      by_cases hp : passedWithAnswer c
      · rw [if_pos hp]
        by_cases h2c : tier2Consumes c
        · rw [if_pos h2c, if_pos h2c]
          exact tier2_inner_length (tier2NewsArr c) st
        · rw [if_neg h2c, if_neg h2c]
          by_cases h3 : (answerStr c).length > 100
          · have hq : tier3Qualifies c = true := by simp [tier3Qualifies, hp, h3]
            rw [if_pos (by simpa using h3), hq]
            simp
          · have hq : tier3Qualifies c = false := by simp [tier3Qualifies, h3]
            rw [if_neg (by simpa using h3), hq]
            simp
      · have h2c : tier2Consumes c = false := by
          unfold tier2Consumes
          rw [Bool.not_eq_true] at hp
          rw [hp]
          rfl
        have hq : tier3Qualifies c = false := by simp [tier3Qualifies, hp]
        rw [if_neg hp, h2c, hq]
        simp
    rw [hstep]
    omega

/-!
Helper lemmas about the poll loop.
-/

theorem pollFrom_run (polls : Nat → JobPoll) :
    ∀ (fuel i k : Nat), k < fuel →
      (∀ j, j < k → ¬ isTerminal (polls (i + j))) →
      (((polls (i + k)).status = "complete" →
         pollFrom polls i fuel = .complete (i + k + 1) (polls (i + k))) ∧
       ((polls (i + k)).status = "failed" →
         pollFrom polls i fuel = .failed (i + k + 1) (polls (i + k)))) := by
  intro fuel
  induction fuel with
  | zero => intro i k hk; omega
  | succ f ih =>
    intro i k hk hrun
    cases k with
    | zero =>
      constructor
      · intro hc
        simp only [Nat.add_zero] at hc ⊢
        simp [pollFrom, hc]
      · intro hc
        simp only [Nat.add_zero] at hc ⊢
        simp [pollFrom, hc]
    | succ k2 =>
      have h0 : ¬ isTerminal (polls i) := by
        have := hrun 0 (by omega)
        simpa using this
      have hnc : ¬ (polls i).status = "complete" := fun hc => h0 (Or.inl hc)
      have hnf : ¬ (polls i).status = "failed" := fun hc => h0 (Or.inr hc)
      have hrec := ih (i + 1) k2 (by omega) (fun j hj => by
        have := hrun (j + 1) (by omega)
        rwa [show i + (j + 1) = i + 1 + j by omega] at this)
      have hidx : i + 1 + k2 = i + (k2 + 1) := by omega
      rw [hidx] at hrec
      have hunfold : pollFrom polls i (f + 1) = pollFrom polls (i + 1) f := by
        simp [pollFrom, hnc, hnf]
      constructor
      · intro hc
        rw [hunfold]
        have := hrec.1 hc
        rwa [show i + (k2 + 1) + 1 = i + (k2 + 1) + 1 from rfl] at this
      · intro hc
        rw [hunfold]
        exact hrec.2 hc

theorem pollFrom_timeout (polls : Nat → JobPoll) :
    ∀ (fuel i : Nat), (∀ j, j < fuel → ¬ isTerminal (polls (i + j))) →
      pollFrom polls i fuel = .timedOut (i + fuel) := by
  intro fuel
  induction fuel with
  | zero => intro i h; rfl
  | succ f ih =>
    intro i h
    have h0 : ¬ isTerminal (polls i) := by
      have := h 0 (by omega)
      simpa using this
    have hnc : ¬ (polls i).status = "complete" := fun hc => h0 (Or.inl hc)
    have hnf : ¬ (polls i).status = "failed" := fun hc => h0 (Or.inr hc)
    have := ih (i + 1) (fun j hj => by
      have := h (j + 1) (by omega)
      rwa [show i + (j + 1) = i + 1 + j by omega] at this)
    simp only [pollFrom, hnc, hnf, if_false]
    rw [this]
    congr 1
    omega

/-!
Evaluations of the pipeline on the concrete inputs used by witnesses and
counterexamples.  The pre-sort lists compute definitionally; only the
final mergeSort needs its equations.
-/

theorem extract_rdLong (t : String) :
    extract_news_items rdLong t = ⟨[tier3Item t 1 chkLong], defaultTopics, []⟩ := by
  have hp : preSortItems rdLong t = [tier3Item t 1 chkLong] := rfl
  unfold extract_news_items
  rw [hp, List.mergeSort_singleton]
  rfl

theorem extract_rd100 (t : String) :
    extract_news_items rd100 t = ⟨[], defaultTopics, []⟩ := by
  have hp : preSortItems rd100 t = [] := rfl
  unfold extract_news_items
  rw [hp, List.mergeSort_nil]
  rfl

theorem extract_rdDupIds (t : String) :
    extract_news_items rdDupIds t
      = ⟨[[("id", .str "x")], [("id", .str "x")]], defaultTopics, []⟩ := by
  have hp : preSortItems rdDupIds t = [[("id", .str "x")], [("id", .str "x")]] := rfl
  unfold extract_news_items
  rw [hp]
  rw [List.mergeSort_of_sorted (pairwise_newsLe_of_const (s := 0) (by decide))]
  rfl

theorem extract_rdMix (t : String) :
    extract_news_items rdMix t
      = ⟨[tier3Item t 2 chkLong, [("id", .str "1"), ("headline", .str "A")]],
         defaultTopics, []⟩ := by
  have hp : preSortItems rdMix t
      = [[("id", .str "1"), ("headline", .str "A")], tier3Item t 2 chkLong] := rfl
  unfold extract_news_items
  rw [hp, mergeSort_pair]
  have hle : newsLe [("id", JsonV.str "1"), ("headline", JsonV.str "A")]
      (tier3Item t 2 chkLong) = false := by
    have h6 : relKey (tier3Item t 2 chkLong) = 6 := relKey_tier3Item t 2 chkLong
    simp [newsLe, h6]
    decide
  rw [hle]
  simp only [Bool.false_eq_true, if_false]
  rfl

theorem extract_rdScores (t : String) :
    extract_news_items rdScores t
      = ⟨[[("id", .str "2"), ("headline", .str "h")],
          [("id", .str "1"), ("relevance_score", .int (-1))]], defaultTopics, []⟩ := by
  have hp : preSortItems rdScores t
      = [[("id", .str "1"), ("relevance_score", .int (-1))],
         [("id", .str "2"), ("headline", .str "h")]] := rfl
  unfold extract_news_items
  rw [hp, mergeSort_pair]
  rw [show newsLe [("id", JsonV.str "1"), ("relevance_score", JsonV.int (-1))]
      [("id", JsonV.str "2"), ("headline", JsonV.str "h")] = false by decide]
  simp only [Bool.false_eq_true, if_false]
  rfl

theorem extract_rdFreeText (t : String) :
    extract_news_items rdFreeText t = ⟨[tier3Item t 1 chkLong], defaultTopics, []⟩ := by
  have hp : preSortItems rdFreeText t = [tier3Item t 1 chkLong] := rfl
  unfold extract_news_items
  rw [hp, List.mergeSort_singleton]
  rfl

/-!
The claims.
-/

/-- C1: for every ResearchJob input containing at least one check record
whose payload has a truthy structured_output dict with a non-empty
news_items array, the pipeline output is exactly the (sorted) structured
tier: tiers 2, 3 and 4 contribute nothing, and the output item count is
the sum of the news_items lengths over all structured_output documents. -/
theorem structured_tier_output (rd : ResearchData) (now : String)
    (h : ∃ c ∈ rd.check_results, ∃ so, c.structured_output = some so ∧
         so.isEmpty = false ∧ ∃ xs, Obj.get so "news_items" = some (.arr xs) ∧ xs ≠ []) :
    (extract_news_items rd now).news_items = (tier1Items rd.check_results).mergeSort newsLe ∧
    (extract_news_items rd now).news_items.length = (rd.check_results.map structCount).sum := by
  obtain ⟨c, hc, so, hso, hne, xs, hget, hxs⟩ := h
  have hcount : structCount c ≠ 0 := by
    unfold structCount structuredNews
    rw [hso]
    simp only [hne, hget, Bool.not_false, if_true, asArr]
    simpa using hxs
  have hlen0 : (tier1Items rd.check_results).length ≠ 0 := by
    rw [tier1Items_length]
    intro h0
    exact hcount (List.sum_eq_zero_iff.mp h0 _ (List.mem_map_of_mem structCount hc))
  have hemp : (tier1Items rd.check_results).isEmpty = false := by
    cases hT : tier1Items rd.check_results with
    | nil => rw [hT] at hlen0; simp at hlen0
    | cons a l => rfl
  have haf : itemsAfterFallback rd now = tier1Items rd.check_results := by
    unfold itemsAfterFallback
    rw [hemp]
    simp
  have hps : preSortItems rd now = tier1Items rd.check_results := by
    unfold preSortItems
    rw [haf, hemp]
    simp
  constructor
  · show (preSortItems rd now).mergeSort newsLe = _
    rw [hps]
  · show ((preSortItems rd now).mergeSort newsLe).length = _
    rw [hps, List.length_mergeSort, tier1Items_length]

/-- Witness for C1, at a job with one structured check carrying one item. -/
theorem structured_tier_output_witness :
    (∃ c ∈ rdStructured.check_results, ∃ so, c.structured_output = some so ∧
       so.isEmpty = false ∧ ∃ xs, Obj.get so "news_items" = some (.arr xs) ∧ xs ≠ []) ∧
    (extract_news_items rdStructured "T").news_items
        = (tier1Items rdStructured.check_results).mergeSort newsLe ∧
    (extract_news_items rdStructured "T").news_items.length
        = (rdStructured.check_results.map structCount).sum := by
  have h : ∃ c ∈ rdStructured.check_results, ∃ so, c.structured_output = some so ∧
      so.isEmpty = false ∧ ∃ xs, Obj.get so "news_items" = some (.arr xs) ∧ xs ≠ [] := by
    refine ⟨chkStructured, List.mem_cons_self _ _, _, rfl, rfl, _, rfl, ?_⟩
    simp
  exact ⟨h, (structured_tier_output rdStructured "T" h).1,
    (structured_tier_output rdStructured "T" h).2⟩

/-- C2 (amended): the pipeline is a deterministic function of its input
and the clock reading; two runs on the same input at different times
agree on every field except the published_date of synthesized items, so
the bundles are identical after blanking published_date. -/
theorem pipeline_clock_determinism (rd : ResearchData) (t1 t2 : String) :
    eraseBundle (extract_news_items rd t1) = eraseBundle (extract_news_items rd t2) := by
  unfold eraseBundle extract_news_items
  simp only [Bundle.mk.injEq, and_true]
  rw [map_eraseDate_mergeSort, map_eraseDate_mergeSort, preSortItems_erase rd t1 t2]

/-- Counterexample to C2 as stated: the same input at two clock readings
yields different bundles, because the free-text tier stamps
published_date with the current time. -/
theorem pipeline_clock_counterexample :
    extract_news_items rdLong "2026-01-01T06:00:00"
      ≠ extract_news_items rdLong "2026-01-02T06:00:00" := by
  intro h
  rw [extract_rdLong, extract_rdLong] at h
  have h2 := congrArg Bundle.news_items h
  simp only [tier3Item] at h2
  simp at h2

/-- C5 (amended): with zero structured-output items, each check record
contributes to the fallback loop either its embedded-JSON items (when
tier 2 consumes it) or one synthesized free-text item (when it
qualifies), never both; the loop does not stop after the first record
that yields items, so tier 3 can still run for other records. -/
theorem fallback_per_record_exclusivity (rd : ResearchData) (now : String)
    (h1 : tier1Items rd.check_results = []) :
    ((rd.check_results.foldl (fallbackStep now) (tier1Items rd.check_results, 1)).1).length
      = (rd.check_results.map checkContribution).sum := by
  rw [fallback_length now rd.check_results (tier1Items rd.check_results, 1), h1]
  simp

/-- Witness for C5, at a job with an embedded-JSON check and a long
free-text check. -/
theorem fallback_per_record_exclusivity_witness :
    tier1Items rdMix.check_results = [] ∧
    ((rdMix.check_results.foldl (fallbackStep "T") (tier1Items rdMix.check_results, 1)).1).length
      = (rdMix.check_results.map checkContribution).sum :=
  ⟨rfl, fallback_per_record_exclusivity rdMix "T" rfl⟩

/-- Counterexample to C5 as stated: tier 2 consumes the first record and
yields an item, yet the free-text tier still synthesizes an item for the
second record, so the pipeline does not stop at the first tier that
yields items. -/
theorem fallback_per_record_counterexample :
    tier2Consumes chkJson = true ∧
    (extract_news_items rdMix "T").news_items
      = [tier3Item "T" 2 chkLong, [("id", .str "1"), ("headline", .str "A")]] := by
  refine ⟨rfl, ?_⟩
  rw [extract_rdMix]

/-- C6: the returned news item list is sorted by relevance score in
descending order, and the sort is stable: the items of any fixed score
appear in the same order as in the pre-sort list. -/
theorem news_sorted_stable (rd : ResearchData) (now : String) :
    ((extract_news_items rd now).news_items).Pairwise (fun a b => relKey b ≤ relKey a) ∧
    ∀ s : Int, ((extract_news_items rd now).news_items).filter (fun o => relKey o == s)
        = (preSortItems rd now).filter (fun o => relKey o == s) :=
  ⟨extract_pairwise rd now, fun s => filter_key_mergeSort s (preSortItems rd now)⟩

/-- C3 (amended): every news item in a produced bundle has a non-empty
id, and ids are unique within the bundle, provided no embedded-JSON
(tier 2) item carries its own id field; a parsed id key overrides the
assigned sequential id, which is what the provision excludes. -/
theorem bundle_ids_unique (rd : ResearchData) (now : String)
    (hcs : ∀ c ∈ rd.check_results, ∀ itemV ∈ tier2NewsArr c, ∀ p ∈ asObj itemV, ¬ p.1 = "id") :
    (idsOf ((extract_news_items rd now).news_items)).Nodup ∧
    ∀ o ∈ (extract_news_items rd now).news_items,
      ∃ s, Obj.get o "id" = some (.str s) ∧ s ≠ "" := by
  have hids := preSortItems_ids rd now hcs
  have hperm : List.Perm ((extract_news_items rd now).news_items) (preSortItems rd now) :=
    List.mergeSort_perm _ _
  constructor
  · have hpermids : List.Perm (idsOf ((extract_news_items rd now).news_items))
        (idsOf (preSortItems rd now)) := hperm.map _
    rw [List.Perm.nodup_iff hpermids, hids]
    apply List.Nodup.map
    · intro a b hab
      simp only [Option.some.injEq, JsonV.str.injEq] at hab
      exact Nat_repr_injective hab
    · exact List.nodup_range' 1 _
  · intro o ho
    have ho2 : o ∈ preSortItems rd now := List.mem_mergeSort.mp ho
    have hmem : Obj.get o "id" ∈ idsOf (preSortItems rd now) :=
      List.mem_map_of_mem _ ho2
    rw [hids] at hmem
    obtain ⟨k, _, he⟩ := List.mem_map.mp hmem
    exact ⟨Nat.repr k, he.symm, Nat_repr_ne_empty k⟩

/-- Witness for C3, at a job whose only check has structured output and
hence no tier-2 items at all. -/
theorem bundle_ids_unique_witness :
    (∀ c ∈ rdStructured.check_results, ∀ itemV ∈ tier2NewsArr c,
      ∀ p ∈ asObj itemV, ¬ p.1 = "id") ∧
    (idsOf ((extract_news_items rdStructured "T").news_items)).Nodup ∧
    ∀ o ∈ (extract_news_items rdStructured "T").news_items,
      ∃ s, Obj.get o "id" = some (.str s) ∧ s ≠ "" := by
  have h : ∀ c ∈ rdStructured.check_results, ∀ itemV ∈ tier2NewsArr c,
      ∀ p ∈ asObj itemV, ¬ p.1 = "id" := by
    intro c hc itemV hm
    rcases List.mem_singleton.mp hc with rfl
    rw [show tier2NewsArr chkStructured = [] from rfl] at hm
    exact absurd hm (List.not_mem_nil itemV)
  exact ⟨h, (bundle_ids_unique rdStructured "T" h).1, (bundle_ids_unique rdStructured "T" h).2⟩

/-- Counterexample to C3 as stated: two embedded-JSON items both carrying
id "x" override the assigned sequential ids, so the persisted bundle has
duplicate ids. -/
theorem bundle_ids_counterexample :
    idsOf ((extract_news_items rdDupIds "T").news_items)
        = [some (.str "x"), some (.str "x")] ∧
    ¬ (idsOf ((extract_news_items rdDupIds "T").news_items)).Nodup := by
  have he := extract_rdDupIds "T"
  constructor
  · rw [he]; rfl
  · rw [he]
    simp [idsOf]

/-- C4 (amended): with zero structured-output items and no record
consumed by the embedded-JSON tier, the free-text tier synthesizes
exactly one item per passed check whose answer is strictly longer than
100 characters (the comparison in the code is strict, so an answer of
exactly 100 characters synthesizes nothing), with the documented fields;
the items all carry relevance score 6, and when at least one item is
synthesized they are the entire pipeline output. -/
theorem free_text_tier_items (rd : ResearchData) (now : String)
    (h1 : tier1Items rd.check_results = [])
    (h2 : ∀ c ∈ rd.check_results, tier2Consumes c = false) :
    (rd.check_results.foldl (fallbackStep now) (tier1Items rd.check_results, 1)).1
        = tier3ExpectedFrom now 1 rd.check_results ∧
    (tier3ExpectedFrom now 1 rd.check_results).length
        = (rd.check_results.filter tier3Qualifies).length ∧
    (∀ o ∈ tier3ExpectedFrom now 1 rd.check_results, relKey o = 6) ∧
    (tier3ExpectedFrom now 1 rd.check_results ≠ [] →
      (extract_news_items rd now).news_items = tier3ExpectedFrom now 1 rd.check_results) := by
  have hfold := fallback_no_consumption now rd.check_results h2
    (tier1Items rd.check_results, 1)
  rw [h1] at hfold
  simp only [List.nil_append] at hfold
  have hfold2 : (rd.check_results.foldl (fallbackStep now) (tier1Items rd.check_results, 1)).1
      = tier3ExpectedFrom now 1 rd.check_results := by
    rw [h1]
    exact hfold
  refine ⟨hfold2, tier3ExpectedFrom_length now _ 1, relKey_tier3ExpectedFrom now _ 1, ?_⟩
  intro hne
  have haf : itemsAfterFallback rd now = tier3ExpectedFrom now 1 rd.check_results := by
    unfold itemsAfterFallback
    rw [h1]
    simp only [List.isEmpty_nil, if_true]
    rw [← h1]
    exact hfold2
  have hie : (tier3ExpectedFrom now 1 rd.check_results).isEmpty = false := by
    cases hT : tier3ExpectedFrom now 1 rd.check_results with
    | nil => exact absurd hT hne
    | cons a l => rfl
  have hps : preSortItems rd now = tier3ExpectedFrom now 1 rd.check_results := by
    unfold preSortItems
    rw [haf, hie]
    simp
  show (preSortItems rd now).mergeSort newsLe = _
  rw [hps]
  exact List.mergeSort_of_sorted
    (pairwise_newsLe_of_const (s := 6) (relKey_tier3ExpectedFrom now _ 1))

/-- Witness for C4, at a job with one qualifying and one short check. -/
theorem free_text_tier_items_witness :
    tier1Items rdFreeText.check_results = [] ∧
    (∀ c ∈ rdFreeText.check_results, tier2Consumes c = false) ∧
    (rdFreeText.check_results.foldl (fallbackStep "T") (tier1Items rdFreeText.check_results, 1)).1
        = tier3ExpectedFrom "T" 1 rdFreeText.check_results ∧
    (extract_news_items rdFreeText "T").news_items
        = tier3ExpectedFrom "T" 1 rdFreeText.check_results := by
  have h1 : tier1Items rdFreeText.check_results = [] := rfl
  have h2 : ∀ c ∈ rdFreeText.check_results, tier2Consumes c = false := by
    intro c hc
    rcases List.mem_cons.mp hc with rfl | hc2
    · rfl
    · rcases List.mem_singleton.mp hc2 with rfl
      rfl
  refine ⟨h1, h2, (free_text_tier_items rdFreeText "T" h1 h2).1, ?_⟩
  exact (free_text_tier_items rdFreeText "T" h1 h2).2.2.2 (by
    rw [show tier3ExpectedFrom "T" 1 rdFreeText.check_results
      = [tier3Item "T" 1 chkLong] from rfl]
    simp)

/-- Counterexample to C4 as stated: a passed check whose answer has
exactly 100 characters (so at least 100, as the claim requires)
synthesizes nothing, because the code requires strictly more than 100. -/
theorem free_text_tier_counterexample :
    passedWithAnswer chk100 = true ∧
    (answerStr chk100).length = 100 ∧
    (extract_news_items rd100 "T").news_items = [] := by
  refine ⟨rfl, rfl, ?_⟩
  rw [extract_rd100]

/-- C7: with the research API configured, the poll loop returns the job
data of the first poll reporting status complete; on the first poll
reporting status failed the run aborts with the external-service error
after exactly that many poll calls and publishes nothing; and with no
terminal status within the 90-attempt budget the run aborts with the
timeout error after exactly 90 polls and publishes nothing. -/
theorem poll_protocol (cfg : Config) (polls : Nat → JobPoll) (now : String)
    (hcfg : ¬ (cfg.grep_api_url = "" ∨ cfg.grep_api_token = "")) :
    (∀ k, k < 90 → (∀ j, j < k → ¬ isTerminal (polls j)) →
      (((polls k).status = "complete" →
          run_research cfg polls = (.ok (polls k).research, (1, k + 1))) ∧
       ((polls k).status = "failed" →
          main_run cfg polls now = ⟨.error .externalService, 1, k + 1, 0⟩))) ∧
    ((∀ j, j < 90 → ¬ isTerminal (polls j)) →
      main_run cfg polls now = ⟨.error .timeout, 1, 90, 0⟩) := by
  push_neg at hcfg
  have hif : (cfg.grep_api_url = "" || cfg.grep_api_token = "") = false := by
    simp [hcfg.1, hcfg.2]
  constructor
  · intro k hk hrun
    have hpoll := pollFrom_run polls 90 0 k hk (by intro j hj; simpa using hrun j hj)
    constructor
    · intro hc
      have hp := hpoll.1 (by simpa using hc)
      unfold run_research run_research_poll
      rw [hif]
      simp only [Bool.false_eq_true, if_false]
      rw [show pollFrom polls 0 90 = PollOutcome.complete (0 + k + 1) (polls (0 + k)) from hp]
      simp
    · intro hc
      have hp := hpoll.2 (by simpa using hc)
      unfold main_run run_research run_research_poll
      rw [hif]
      simp only [Bool.false_eq_true, if_false]
      rw [show pollFrom polls 0 90 = PollOutcome.failed (0 + k + 1) (polls (0 + k)) from hp]
      simp
  · intro hrun
    have hp := pollFrom_timeout polls 90 0 (by intro j hj; simpa using hrun j hj)
    unfold main_run run_research run_research_poll
    rw [hif]
    simp only [Bool.false_eq_true, if_false]
    rw [show pollFrom polls 0 90 = PollOutcome.timedOut (0 + 90) from hp]

/-- Witness for C7: a stream failing on the third poll aborts after
exactly 3 polls (scenario D), and a never-terminal stream times out
after exactly 90 polls (scenario E); neither publishes. -/
theorem poll_protocol_witness :
    main_run cfgFull pollsFailAt3 "T" = ⟨.error .externalService, 1, 3, 0⟩ ∧
    main_run cfgFull pollsNever "T" = ⟨.error .timeout, 1, 90, 0⟩ := by
  have hcfg : ¬ (cfgFull.grep_api_url = "" ∨ cfgFull.grep_api_token = "") := by
    simp [cfgFull]
  constructor
  · exact ((poll_protocol cfgFull pollsFailAt3 "T" hcfg).1 2 (by omega)
      (by intro j hj; interval_cases j <;> simp [pollsFailAt3, isTerminal])).2 rfl
  · exact (poll_protocol cfgFull pollsNever "T" hcfg).2
      (by intro j hj; simp [pollsNever, isTerminal])

/-- C8 (amended): a missing research-API parameter aborts the run with
the configuration error before any network call; a missing object-store
parameter also makes the run fail without publishing anything, but only
at the publish stage — the research network calls have already happened
by then, contrary to the claim that the abort precedes any network
call. -/
theorem config_error_handling (cfg : Config) (polls : Nat → JobPoll) (now : String) :
    ((cfg.grep_api_url = "" ∨ cfg.grep_api_token = "") →
      main_run cfg polls now = ⟨.error .config, 0, 0, 0⟩) ∧
    ((cfg.minio_endpoint = "" ∨ cfg.minio_access_key = "" ∨ cfg.minio_secret_key = "") →
      (main_run cfg polls now).put_calls = 0 ∧
      ∀ b, ¬ (main_run cfg polls now).result = .ok b) := by
  constructor
  · intro h
    have hif : (cfg.grep_api_url = "" || cfg.grep_api_token = "") = true := by
      rcases h with h | h <;> simp [h]
    unfold main_run run_research
    rw [hif]
    simp
  · intro h
    have hifm : (cfg.minio_endpoint = "" || cfg.minio_access_key = ""
        || cfg.minio_secret_key = "") = true := by
      rcases h with h | h | h <;> simp [h]
    unfold main_run run_research save_to_minio
    by_cases hg : (cfg.grep_api_url = "" || cfg.grep_api_token = "") = true
    · rw [hg]
      simp
    · rw [Bool.not_eq_true] at hg
      rw [hg]
      simp only [Bool.false_eq_true, if_false]
      cases hpo : run_research_poll polls with
      | complete a d =>
        rw [hifm]
        simp
      | failed a d => simp
      | timedOut a => simp

/-- Witness for C8: missing research token aborts with no calls at all;
missing store endpoint yields no publish and no successful result. -/
theorem config_error_handling_witness :
    (cfgNoGrep.grep_api_url = "" ∨ cfgNoGrep.grep_api_token = "") ∧
    main_run cfgNoGrep pollsDone "T" = ⟨.error .config, 0, 0, 0⟩ ∧
    (cfgNoMinio.minio_endpoint = "" ∨ cfgNoMinio.minio_access_key = ""
      ∨ cfgNoMinio.minio_secret_key = "") ∧
    (main_run cfgNoMinio pollsDone "T").put_calls = 0 :=
  ⟨Or.inr rfl, (config_error_handling cfgNoGrep pollsDone "T").1 (Or.inr rfl),
   Or.inl rfl, ((config_error_handling cfgNoMinio pollsDone "T").2 (Or.inl rfl)).1⟩

/-- Counterexample to C8 as stated: with the object-store endpoint unset
the run does abort with the configuration error, but only after one
submit call and one poll call — not before any network call. -/
theorem config_error_counterexample :
    main_run cfgNoMinio pollsDone "T" = ⟨.error .config, 1, 1, 0⟩ ∧
    (main_run cfgNoMinio pollsDone "T").poll_calls ≠ 0 := by
  refine ⟨rfl, ?_⟩
  rw [show main_run cfgNoMinio pollsDone "T" = ⟨.error .config, 1, 1, 0⟩ from rfl]
  simp

/-- C9 (amended): the get-latest read serves the demo bundle whenever the
store is unconfigured, unreachable, the key is absent, or the stored
document is falsy; when a truthy stored document validates as a news
response it is served as-is.  A truthy stored document that fails
response-model validation is the one case that raises instead of serving
a bundle, contrary to the never-an-error claim. -/
theorem get_latest_fallback (endpoint : String) (resp : StoreResponse) (t : String) :
    (endpoint = "" → get_latest_news endpoint resp t = some (demoResponse t)) ∧
    (get_latest_news endpoint .unreachable t = some (demoResponse t)) ∧
    (get_latest_news endpoint .non200 t = some (demoResponse t)) ∧
    (∀ b, resp = .ok b → pyTruthy b = false → ¬ endpoint = "" →
      get_latest_news endpoint resp t = some (demoResponse t)) ∧
    (∀ b r, resp = .ok b → pyTruthy b = true → validateNewsResponse b = some r →
      ¬ endpoint = "" → get_latest_news endpoint resp t = some r) := by
  have hdemo : validateNewsResponse (DEMO_NEWS t) = some (demoResponse t) := rfl
  refine ⟨?_, ?_, ?_, ?_, ?_⟩
  · intro he
    unfold get_latest_news fetch_from_minio
    rw [if_pos he]
    exact hdemo
  · unfold get_latest_news fetch_from_minio
    by_cases he : endpoint = ""
    · rw [if_pos he]; exact hdemo
    · rw [if_neg he]; exact hdemo
  · unfold get_latest_news fetch_from_minio
    by_cases he : endpoint = ""
    · rw [if_pos he]; exact hdemo
    · rw [if_neg he]; exact hdemo
  · intro b hb hf hne
    subst hb
    unfold get_latest_news fetch_from_minio
    rw [if_neg hne]
    cases b with
    | null => exact hdemo
    | bool x =>
      show (if pyTruthy (.bool x) = true then validateNewsResponse (.bool x)
        else validateNewsResponse (DEMO_NEWS t)) = some (demoResponse t)
      rw [hf]
      simpa using hdemo
    | int n =>
      show (if pyTruthy (.int n) = true then validateNewsResponse (.int n)
        else validateNewsResponse (DEMO_NEWS t)) = some (demoResponse t)
      rw [hf]
      simpa using hdemo
    | str s =>
      show (if pyTruthy (.str s) = true then validateNewsResponse (.str s)
        else validateNewsResponse (DEMO_NEWS t)) = some (demoResponse t)
      rw [hf]
      simpa using hdemo
    | arr xs =>
      show (if pyTruthy (.arr xs) = true then validateNewsResponse (.arr xs)
        else validateNewsResponse (DEMO_NEWS t)) = some (demoResponse t)
      rw [hf]
      simpa using hdemo
    | obj o =>
      show (if pyTruthy (.obj o) = true then validateNewsResponse (.obj o)
        else validateNewsResponse (DEMO_NEWS t)) = some (demoResponse t)
      rw [hf]
      simpa using hdemo
  · intro b r hb ht hv hne
    subst hb
    unfold get_latest_news fetch_from_minio
    rw [if_neg hne]
    cases b with
    | null => exact absurd ht (by simp [pyTruthy])
    | bool x =>
      show (if pyTruthy (.bool x) = true then validateNewsResponse (.bool x)
        else validateNewsResponse (DEMO_NEWS t)) = some r
      rw [ht]
      simpa using hv
    | int n =>
      show (if pyTruthy (.int n) = true then validateNewsResponse (.int n)
        else validateNewsResponse (DEMO_NEWS t)) = some r
      rw [ht]
      simpa using hv
    | str s =>
      show (if pyTruthy (.str s) = true then validateNewsResponse (.str s)
        else validateNewsResponse (DEMO_NEWS t)) = some r
      rw [ht]
      simpa using hv
    | arr xs =>
      show (if pyTruthy (.arr xs) = true then validateNewsResponse (.arr xs)
        else validateNewsResponse (DEMO_NEWS t)) = some r
      rw [ht]
      simpa using hv
    | obj o =>
      show (if pyTruthy (.obj o) = true then validateNewsResponse (.obj o)
        else validateNewsResponse (DEMO_NEWS t)) = some r
      rw [ht]
      simpa using hv

/-- Witness for C9: an unconfigured endpoint serves the demo bundle, and
a valid stored bundle is served verbatim. -/
theorem get_latest_fallback_witness :
    get_latest_news "" (.ok goodStoredDoc) "T" = some (demoResponse "T") ∧
    get_latest_news "http://minio:9000" (.ok goodStoredDoc) "T" = some goodStoredResponse := by
  constructor
  · exact (get_latest_fallback "" (.ok goodStoredDoc) "T").1 rfl
  · exact (get_latest_fallback "http://minio:9000" (.ok goodStoredDoc) "T").2.2.2.2
      goodStoredDoc goodStoredResponse rfl rfl rfl (by simp)

/-- Counterexample to C9 as stated: a stored truthy document whose news
item lacks the required headline fails response validation, so the read
raises instead of returning a bundle. -/
theorem get_latest_error_counterexample :
    pyTruthy badStoredDoc = true ∧
    get_latest_news "http://minio:9000" (.ok badStoredDoc) "T" = none :=
  ⟨rfl, rfl⟩

/-- C10 (amended): a tier-2 item keeps every field of its parsed source
verbatim with no defaults or validation (the assigned id only fills in
when the parsed item has no id of its own); a missing relevance_score is
read as 0 by the sort key, so in the sorted output everything after a
missing-score item has score at most 0 — such an item is placed after
every item with a positive explicit score, but not necessarily after
items with zero or negative explicit scores. -/
theorem tier2_verbatim_sort :
    (∀ (n : Nat) (o : Obj), (o.map Prod.fst).Nodup →
      (∀ k, ¬ k = "id" → Obj.get (tier2Item n (.obj o)) k = Obj.get o k) ∧
      (Obj.get o "id" = none →
        Obj.get (tier2Item n (.obj o)) "id" = some (.str (Nat.repr n)))) ∧
    (∀ o : Obj, Obj.get o "relevance_score" = none → relKey o = 0) ∧
    (∀ (rd : ResearchData) (now : String) (i j : Nat) (a b : Obj),
      i ≤ j →
      ((extract_news_items rd now).news_items)[i]? = some a →
      ((extract_news_items rd now).news_items)[j]? = some b →
      Obj.get a "relevance_score" = none → relKey b ≤ 0) := by
  refine ⟨?_, ?_, ?_⟩
  · intro n o hnd
    constructor
    · intro k hk
      show Obj.get (Obj.mergeOver [("id", JsonV.str (Nat.repr n))] o) k = Obj.get o k
      rw [get_mergeOver_of_nodup _ _ _ hnd]
      cases ho : Obj.get o k with
      | some v => rfl
      | none =>
        show Obj.get [("id", JsonV.str (Nat.repr n))] k = none
        rw [get_cons_ne (fun hc => hk hc.symm), get_nil]
    · intro hid
      show Obj.get (Obj.mergeOver [("id", JsonV.str (Nat.repr n))] o) "id"
          = some (.str (Nat.repr n))
      rw [get_mergeOver_of_nodup _ _ _ hnd, hid]
      exact get_cons_self rfl
  · intro o h
    rw [relKey, h]
  · intro rd now i j a b hij ha hb hmiss
    have hpw := extract_pairwise rd now
    have ha2 := List.getElem?_eq_some.mp ha
    have hb2 := List.getElem?_eq_some.mp hb
    obtain ⟨hi, hai⟩ := ha2
    obtain ⟨hj, hbj⟩ := hb2
    have hka : relKey a = 0 := by rw [relKey, hmiss]
    rcases Nat.lt_or_ge i j with hlt | hge
    · have hrel := (List.pairwise_iff_getElem.mp hpw) i j hi hj hlt
      rw [hai, hbj] at hrel
      omega
    · have hij2 : i = j := by omega
      subst hij2
      rw [hai] at hbj
      rw [← hbj, hka]

/-- Witness for C10: a parsed item keeps its headline verbatim and gets
the assigned id; in the sorted output of the scores example everything
after the missing-score item has a non-positive score. -/
theorem tier2_verbatim_sort_witness :
    Obj.get (tier2Item 5 (.obj [("headline", .str "h")])) "headline" = some (.str "h") ∧
    Obj.get (tier2Item 5 (.obj [("headline", .str "h")])) "id" = some (.str (Nat.repr 5)) ∧
    relKey [("headline", JsonV.str "h")] = 0 ∧
    relKey [("id", JsonV.str "1"), ("relevance_score", JsonV.int (-1))] ≤ 0 := by
  have hnd : (([("headline", JsonV.str "h")] : Obj).map Prod.fst).Nodup := by simp
  refine ⟨?_, ?_, ?_, ?_⟩
  · exact (tier2_verbatim_sort.1 5 _ hnd).1 "headline" (by simp)
  · exact (tier2_verbatim_sort.1 5 _ hnd).2 rfl
  · exact tier2_verbatim_sort.2.1 _ rfl
  · exact tier2_verbatim_sort.2.2 rdScores "T" 0 1
      [("id", .str "2"), ("headline", .str "h")]
      [("id", .str "1"), ("relevance_score", .int (-1))]
      (by omega)
      (by rw [extract_rdScores]; rfl)
      (by rw [extract_rdScores]; rfl)
      rfl

/-- Counterexample to C10 as stated: with an explicit score of -1 on one
parsed item and no score on the other, the missing-score item sorts
before the explicit-score item, so it is not placed after every item
with an explicit score. -/
theorem tier2_sort_counterexample :
    (extract_news_items rdScores "T").news_items
      = [[("id", .str "2"), ("headline", .str "h")],
         [("id", .str "1"), ("relevance_score", .int (-1))]] ∧
    Obj.get [("id", JsonV.str "2"), ("headline", JsonV.str "h")] "relevance_score" = none ∧
    Obj.get [("id", JsonV.str "1"), ("relevance_score", JsonV.int (-1))] "relevance_score"
      = some (.int (-1)) := by
  have he := extract_rdScores "T"
  refine ⟨?_, rfl, rfl⟩
  rw [he]
